import Mathlib

/-!
Verification of the CAMARA API review validator (scripts/api_review_validator_v0_6.py).

The development shallowly embeds the validator's core: the parsed-YAML data
model, the Python dictionary/list access semantics (including the exceptions
raised on unexpected shapes), the API-type classifier, the rule battery run by
`validate_api_file`, reference resolution, the project-consistency schema
normalizer and the test-alignment mapper.  Theorems at the end settle the
specification claims against these definitions.
-/

set_option maxRecDepth 4000

/-- A parsed YAML document: mappings keep insertion order, keys are strings. -/
inductive Yaml where
  | null
  | bool (b : Bool)
  | num (n : Int)
  | str (s : String)
  | arr (items : List Yaml)
  | obj (entries : List (String × Yaml))
deriving Repr

namespace Yaml

mutual

/-- Structural decidable equality for `Yaml` (Python `==` on parsed documents,
with mapping equality taken order-sensitively; the claims below never depend
on key order of compared mappings). -/
def beq : Yaml → Yaml → Bool
  | .null, .null => true
  | .bool a, .bool b => a == b
  | .num a, .num b => a == b
  | .str a, .str b => a == b
  | .arr xs, .arr ys => beqList xs ys
  | .obj xs, .obj ys => beqEntries xs ys
  | _, _ => false

/-- Pointwise equality of YAML sequences. -/
def beqList : List Yaml → List Yaml → Bool
  | [], [] => true
  | x :: xs, y :: ys => beq x y && beqList xs ys
  | _, _ => false

/-- Pointwise equality of YAML mapping entries. -/
def beqEntries : List (String × Yaml) → List (String × Yaml) → Bool
  | [], [] => true
  | (k, v) :: xs, (k2, v2) :: ys => k == k2 && beq v v2 && beqEntries xs ys
  | _, _ => false

end

end Yaml

instance : BEq Yaml := ⟨Yaml.beq⟩

/-- Bool prefix test on character lists (`List.isPrefixOf` specialised). -/
def charsPrefix : List Char → List Char → Bool
  | [], _ => true
  | _ :: _, [] => false
  | a :: as, b :: bs => a == b && charsPrefix as bs

/-- Bool substring test on character lists, scanning left to right. -/
def charsInfix (pat : List Char) : List Char → Bool
  | [] => charsPrefix pat []
  | c :: rest => charsPrefix pat (c :: rest) || charsInfix pat rest

/-- Python `pat in hay` on strings. -/
def pySubstr (pat hay : String) : Bool :=
  charsInfix pat.toList hay.toList

/-- Python `s.startswith(pre)`. -/
def pyStartsWith (s pre : String) : Bool :=
  charsPrefix pre.toList s.toList

/-- Drop the first `n` characters of a string (`s[n:]`). -/
def pyStrDrop (n : Nat) (s : String) : String :=
  String.mk (s.toList.drop n)

/-- Split at every occurrence of a separator character (`s.split(sep)` for the
one-character separators used in the source; `"" → [""]`). -/
def splitOnChar (sep : Char) (s : String) : List String :=
  go s.toList
where
  go : List Char → List String
    | [] => [""]
    | c :: rest =>
      if c == sep then "" :: go rest
      else
        match go rest with
        | part :: parts => (String.mk [c] ++ part) :: parts
        | [] => [String.mk [c]]

/-- Numeric value of a digit run (`int(s)` on all-digit strings). -/
def digitsToNat (cs : List Char) : Nat :=
  cs.foldl (fun acc c => acc * 10 + (c.toNat - '0'.toNat)) 0

/-- First-occurrence de-duplication (worker, keyed by the seen list). -/
def dedupFirstAux (seen : List String) : List String → List String
  | [] => []
  | x :: xs =>
    if seen.contains x then dedupFirstAux seen xs
    else x :: dedupFirstAux (x :: seen) xs

/-- `list(set(xs))` / set collection modelled with first-occurrence order. -/
def dedupFirst (xs : List String) : List String :=
  dedupFirstAux [] xs

/-- A Python exception escaping a check. -/
inductive PyErr where
  | attrError (typeName attrName : String)
  | typeError (typeName : String)
  | keyError (key : String)
  | recursionError
deriving Repr, DecidableEq, BEq

/-- `str(e)` for the exceptions the embedding raises. -/
def PyErr.message : PyErr → String
  | .attrError tn attr => "'" ++ tn ++ "' object has no attribute '" ++ attr ++ "'"
  | .typeError tn => "'" ++ tn ++ "' object is not iterable"
  | .keyError k => "'" ++ k ++ "'"
  | .recursionError => "maximum recursion depth exceeded"

namespace Yaml

/-- Python `type(x).__name__` for parsed YAML values. -/
def typeName : Yaml → String
  | .null => "NoneType"
  | .bool _ => "bool"
  | .num _ => "int"
  | .str _ => "str"
  | .arr _ => "list"
  | .obj _ => "dict"

def isObj : Yaml → Bool
  | .obj _ => true
  | _ => false

/-- Python truthiness of a parsed YAML value. -/
def truthy : Yaml → Bool
  | .null => false
  | .bool b => b
  | .num n => n != 0
  | .str s => s != ""
  | .arr xs => !xs.isEmpty
  | .obj es => !es.isEmpty

/-- First-match association lookup (YAML mappings have unique keys). -/
def lookupKey : List (String × Yaml) → String → Option Yaml
  | [], _ => none
  | (k, v) :: rest, key => if k == key then some v else lookupKey rest key

/-- Python `d.get(key, default)`: raises `AttributeError` when the receiver is
not a dict. -/
def pyGetD (y : Yaml) (key : String) (dflt : Yaml) : Except PyErr Yaml :=
  match y with
  | .obj es => .ok ((lookupKey es key).getD dflt)
  | _ => .error (.attrError y.typeName "get")

/-- Python `d.get(key)` (missing key and explicit `null` both give `None`). -/
def pyGet (y : Yaml) (key : String) : Except PyErr Yaml :=
  pyGetD y key .null

/-- Python `key in d` for dicts; for sequences, element membership. -/
def pyContains (y : Yaml) (key : String) : Bool :=
  match y with
  | .obj es => (lookupKey es key).isSome
  | .arr xs => xs.any (fun v => v == Yaml.str key)
  | .str s => pySubstr key s
  | _ => false

/-- Python iteration over a parsed value (`for x in y`): dicts yield their
keys, lists their items, strings their characters; scalars raise `TypeError`. -/
def pyIter (y : Yaml) : Except PyErr (List Yaml) :=
  match y with
  | .obj es => .ok (es.map (fun kv => Yaml.str kv.1))
  | .arr xs => .ok xs
  | .str s => .ok (s.toList.map (fun c => Yaml.str (String.mk [c])))
  | _ => .error (.typeError y.typeName)

/-- Entries of a mapping, raising `AttributeError` otherwise (`d.items()`). -/
def pyItems (y : Yaml) : Except PyErr (List (String × Yaml)) :=
  match y with
  | .obj es => .ok es
  | _ => .error (.attrError y.typeName "items")

/-- Keys of a mapping, raising `AttributeError` otherwise (`d.keys()`). -/
def pyKeys (y : Yaml) : Except PyErr (List String) :=
  match y with
  | .obj es => .ok (es.map Prod.fst)
  | _ => .error (.attrError y.typeName "keys")

/-- Values of a mapping, raising `AttributeError` otherwise (`d.values()`). -/
def pyValues (y : Yaml) : Except PyErr (List Yaml) :=
  match y with
  | .obj es => .ok (es.map Prod.snd)
  | _ => .error (.attrError y.typeName "values")

end Yaml

/-- Python whitespace characters (the `\s` class over ASCII). -/
def pyIsSpace (c : Char) : Bool :=
  c == ' ' || c == '\t' || c == '\n' || c == '\r' || c == '\x0b' || c == '\x0c'

/-- Python `s.lower()`, modelled per character by `Char.toLower`. -/
def pyLower (s : String) : String :=
  String.mk (s.toList.map Char.toLower)

/-- Python `s.strip()`. -/
def pyStrip (s : String) : String :=
  String.mk (((s.toList.dropWhile pyIsSpace).reverse.dropWhile pyIsSpace).reverse)

/-- Worker for `collapseWs`; the flag records whether the previous character
was whitespace (already emitted as one space). -/
def collapseWsAux : Bool → List Char → List Char
  | _, [] => []
  | prevWs, c :: rest =>
    if pyIsSpace c then
      if prevWs then collapseWsAux true rest else ' ' :: collapseWsAux true rest
    else
      c :: collapseWsAux false rest

/-- Collapse every maximal run of whitespace to one space (`re.sub(r'\s+', ' ', s)`). -/
def collapseWs (cs : List Char) : List Char :=
  collapseWsAux false cs

/-- Digit test for the `\d` class. -/
def pyIsDigit (c : Char) : Bool :=
  '0' ≤ c && c ≤ '9'

/-- Character class `[a-z0-9-]`. -/
def kebabChar (c : Char) : Bool :=
  ('a' ≤ c && c ≤ 'z') || pyIsDigit c || c == '-'

mutual

/-- Python `repr` of a parsed YAML value (string quoting of embedded quotes is
not modelled; the documents under study contain no quote characters). -/
def pyRepr : Yaml → String
  | .null => "None"
  | .bool b => if b then "True" else "False"
  | .num n => toString n
  | .str s => "'" ++ s ++ "'"
  | .arr xs => "[" ++ pyReprList xs ++ "]"
  | .obj es => "\x7b" ++ pyReprEntries es ++ "\x7d"

def pyReprList : List Yaml → String
  | [] => ""
  | [x] => pyRepr x
  | x :: rest => pyRepr x ++ ", " ++ pyReprList rest

def pyReprEntries : List (String × Yaml) → String
  | [] => ""
  | [(k, v)] => "'" ++ k ++ "': " ++ pyRepr v
  | (k, v) :: rest => "'" ++ k ++ "': " ++ pyRepr v ++ ", " ++ pyReprEntries rest

end

/-- Python `str(x)` (used by f-strings): like `repr` but bare for strings. -/
def pyStr : Yaml → String
  | .str s => s
  | y => pyRepr y

/-- `_normalize_text_for_template_check`: strip, lowercase, collapse
whitespace, then remove markdown emphasis characters. -/
def normalizeTextForTemplateCheck (text : String) : String :=
  String.mk
    ((collapseWs (pyStrip (pyLower text)).toList).filter
      (fun c => !(c == '*' || c == '_' || c == '`')))

/-- Full-match test for `^\d+\.\d+\.\d+(-rc\.\d+|-alpha\.\d+)?$`. -/
def semverMatch (s : String) : Bool :=
  matchNum s.toList
where
  digits1 (cs : List Char) : Option (List Char) :=
    match cs with
    | c :: rest => if pyIsDigit c then some (rest.dropWhile pyIsDigit) else none
    | [] => none
  matchNum (cs : List Char) : Bool :=
    match digits1 cs with
    | none => false
    | some cs =>
      match cs with
      | '.' :: cs =>
        match digits1 cs with
        | none => false
        | some cs =>
          match cs with
          | '.' :: cs =>
            match digits1 cs with
            | none => false
            | some cs => matchSuffix cs
          | _ => false
      | _ => false
  matchSuffix (cs : List Char) : Bool :=
    match cs with
    | [] => true
    | '-' :: 'r' :: 'c' :: '.' :: cs =>
      match digits1 cs with
      | some [] => true
      | _ => false
    | '-' :: 'a' :: 'l' :: 'p' :: 'h' :: 'a' :: '.' :: cs =>
      match digits1 cs with
      | some [] => true
      | _ => false
    | _ => false

/-- Full-match test for `^[a-z0-9-]+$`. -/
def kebabMatch (s : String) : Bool :=
  !s.toList.isEmpty && s.toList.all kebabChar

/-- Full-match test for the scope grammar
`^[a-z0-9-]+:[a-z0-9-]+(?::[a-z0-9-]+)?$` (the colon-separated segments are
exactly the `splitOn ":"` parts since `:` is outside the character class). -/
def scopeMatch (s : String) : Bool :=
  let parts := splitOnChar ':' s
  (parts.length == 2 || parts.length == 3) &&
    parts.all (fun p => !p.toList.isEmpty && p.toList.all kebabChar)

/-- Prefix-match test for `^v\d+`. -/
def vDigitMatch (s : String) : Bool :=
  match s.toList with
  | 'v' :: c :: _ => pyIsDigit c
  | _ => false

/-- `re.search`: does the predicate match at some suffix of the text? -/
def searchSuffixes (p : List Char → Bool) : List Char → Bool
  | [] => p []
  | c :: rest => p (c :: rest) || searchSuffixes p rest

/-- After a word, require one-or-more whitespace then the next word, for each
remaining word (`\s+` separators). -/
def wordSeqTail : List (List Char) → List Char → Bool
  | [], _ => true
  | w :: rest, cs =>
    match cs with
    | c :: cs2 =>
      pyIsSpace c &&
        (let cs3 := cs2.dropWhile pyIsSpace
         charsPrefix w cs3 && wordSeqTail rest (cs3.drop w.length))
    | [] => false

/-- Match `#\s*word1(\s+wordK)*` at the head of the text. -/
def headerAt (ws : List (List Char)) (cs : List Char) : Bool :=
  match cs with
  | '#' :: cs2 =>
    let cs3 := cs2.dropWhile pyIsSpace
    match ws with
    | [] => true
    | w :: rest => charsPrefix w cs3 && wordSeqTail rest (cs3.drop w.length)
  | _ => false

/-- Case-insensitive `re.search(r'#\s*w1\s+w2...', desc)`: the words are given
lowercase and the text is lowered before scanning. -/
def headerSearch (words : List String) (desc : String) : Bool :=
  searchSuffixes (headerAt (words.map String.toList)) (pyLower desc).toList

/-- One-or-more digits: the matched run and the rest. -/
def takeDigits1 (cs : List Char) : Option (List Char × List Char) :=
  match cs with
  | c :: _ =>
    if pyIsDigit c then some (cs.takeWhile pyIsDigit, cs.dropWhile pyIsDigit) else none
  | [] => none

/-- Match `\d+\.\d+\.\d+(?:-rc\.\d+|-alpha\.\d+)?` at the head of the text. -/
def matchVersionCore (cs : List Char) : Option (List Char × List Char) :=
  match takeDigits1 cs with
  | none => none
  | some (d1, cs) =>
    match cs with
    | '.' :: cs =>
      (match takeDigits1 cs with
       | none => none
       | some (d2, cs) =>
         match cs with
         | '.' :: cs =>
           (match takeDigits1 cs with
            | none => none
            | some (d3, cs) =>
              let base := d1 ++ ['.'] ++ d2 ++ ['.'] ++ d3
              match cs with
              | '-' :: 'r' :: 'c' :: '.' :: cs2 =>
                (match takeDigits1 cs2 with
                 | some (d4, cs3) => some (base ++ ['-', 'r', 'c', '.'] ++ d4, cs3)
                 | none => some (base, cs))
              | '-' :: 'a' :: 'l' :: 'p' :: 'h' :: 'a' :: '.' :: cs2 =>
                (match takeDigits1 cs2 with
                 | some (d4, cs3) =>
                   some (base ++ ['-', 'a', 'l', 'p', 'h', 'a', '.'] ++ d4, cs3)
                 | none => some (base, cs))
              | _ => some (base, cs))
         | _ => none)
    | _ => none

/-- Match `v?\d+\.\d+\.\d+(?:-rc\.\d+|-alpha\.\d+)?` at the head of the text
(skipping the optional `v` cannot help, since `v` is not a digit). -/
def matchVersionAt (cs : List Char) : Option (List Char × List Char) :=
  match cs with
  | 'v' :: rest =>
    (match matchVersionCore rest with
     | some (m, rest2) => some ('v' :: m, rest2)
     | none => none)
  | _ => matchVersionCore cs

/-- `re.findall` driver: try the matcher at every position, left to right,
resuming after each non-overlapping match; fuel bounds the scan length. -/
def findallAux (matcher : List Char → Option (List Char × List Char)) :
    Nat → List Char → List String
  | 0, _ => []
  | _ + 1, [] => []
  | fuel + 1, c :: rest =>
    match matcher (c :: rest) with
    | some (m, rest2) => String.mk m :: findallAux matcher fuel rest2
    | none => findallAux matcher fuel rest

/-- `re.findall(r'v?\d+\.\d+\.\d+(?:-rc\.\d+|-alpha\.\d+)?', s)`. -/
def findallVersions (s : String) : List String :=
  findallAux matchVersionAt s.toList.length s.toList

/-- Match `request\s+"([^"]+)"` at the head, returning the capture group. -/
def matchRequestAt (cs : List Char) : Option (List Char × List Char) :=
  if charsPrefix "request".toList cs then
    match cs.drop 7 with
    | c :: cs2 =>
      if pyIsSpace c then
        match cs2.dropWhile pyIsSpace with
        | '"' :: cs3 =>
          let cap := cs3.takeWhile (fun d => d != '"')
          (match cs3.dropWhile (fun d => d != '"') with
           | '"' :: cs4 => if cap.isEmpty then none else some (cap, cs4)
           | _ => none)
        | _ => none
      else none
    | [] => none
  else none

/-- `re.findall(r'request\s+"([^"]+)"', content)`. -/
def findallRequests (s : String) : List String :=
  findallAux matchRequestAt s.toList.length s.toList

/-- Severity levels of the Issue model. -/
inductive Severity where
  | CRITICAL
  | MEDIUM
  | LOW
  | INFO
deriving Repr, DecidableEq, BEq

/-- A structured finding (`ValidationIssue` in the source). -/
structure Issue where
  severity : Severity
  category : String
  description : String
  location : String := ""
  fixSuggestion : String := ""
deriving Repr, DecidableEq, BEq

/-- The closed classification enumeration (`APIType`). -/
inductive APIType where
  | REGULAR
  | IMPLICIT_SUBSCRIPTION
  | EXPLICIT_SUBSCRIPTION
deriving Repr, DecidableEq, BEq

/-- The `.value` strings of the `APIType` enum. -/
def APIType.value : APIType → String
  | .REGULAR => "Regular API"
  | .IMPLICIT_SUBSCRIPTION => "Implicit Subscription API"
  | .EXPLICIT_SUBSCRIPTION => "Explicit Subscription API"

/-- The mutable `ValidationResult` threaded through `validate_api_file`. -/
structure VState where
  filePath : String
  apiName : String := ""
  version : Yaml := .str ""
  apiType : APIType := .REGULAR
  issues : List Issue := []
  checks : List String := []
  manual : List String := []
deriving Repr

/-- Computation over the mutable result that may raise a Python exception;
issues and check names appended before the exception are retained, exactly as
with the in-place list mutation in the source. -/
def PyM (α : Type) : Type :=
  VState → VState × Except PyErr α

instance : Monad PyM where
  pure a := fun s => (s, .ok a)
  bind m f := fun s =>
    match m s with
    | (s2, .ok a) => f a s2
    | (s2, .error e) => (s2, .error e)

/-- `result.issues.append(i)`. -/
def emit (i : Issue) : PyM Unit :=
  fun s => ({ s with issues := s.issues ++ [i] }, .ok ())

/-- `result.checks_performed.append(c)`. -/
def addCheck (c : String) : PyM Unit :=
  fun s => ({ s with checks := s.checks ++ [c] }, .ok ())

/-- Raise a Python exception. -/
def pyThrow {α : Type} (e : PyErr) : PyM α :=
  fun s => (s, .error e)

/-- Lift a pure Python-semantics access into the monad. -/
def liftE {α : Type} : Except PyErr α → PyM α
  | .ok a => fun s => (s, .ok a)
  | .error e => fun s => (s, .error e)

/-- Read the current result state. -/
def getS : PyM VState :=
  fun s => (s, .ok s)

/-- Update the current result state. -/
def modifyS (f : VState → VState) : PyM Unit :=
  fun s => (f s, .ok ())

/-- `try: body except Exception as e: handler e`. -/
def pyTry (body : PyM Unit) (handler : PyErr → PyM Unit) : PyM Unit :=
  fun s =>
    match body s with
    | (s2, .ok ()) => (s2, .ok ())
    | (s2, .error e) => handler e s2

/-- The five HTTP methods most checks iterate over. -/
def httpMethods5 : List String :=
  ["get", "post", "put", "delete", "patch"]

/-- `_resolve_reference`: resolve a `#/`-style pointer inside one document;
any failure yields the empty mapping. -/
def resolveReference (ref : String) (apiSpec : Yaml) : Yaml :=
  if !pyStartsWith ref "#/" then .obj []
  else go (splitOnChar '/' (pyStrDrop 2 ref)) apiSpec
where
  go : List String → Yaml → Yaml
    | [], current => if current.isObj then current else .obj []
    | p :: ps, current =>
      match current with
      | .obj es =>
        (match Yaml.lookupKey es p with
         | some v => go ps v
         | none => .obj [])
      | _ => .obj []

/-- The path substrings signalling an explicit-subscription API. -/
def subscriptionPatterns : List String :=
  ["/subscriptions", "/subscription"]

/-- The keywords scanned for in stringified response schemas. -/
def implicitKeywords : List String :=
  ["webhook", "event", "notification", "callback"]

/-- Keyword scan over the flattened textual rendering of a schema. -/
def schemaHasKeyword (schema : Yaml) : Bool :=
  implicitKeywords.any (fun kw => pySubstr kw (pyLower (pyStr schema)))

/-- Mapping access with a default, usable once the receiver is known to be a
mapping (`media_obj.get('schema', {})` after an `isinstance` guard). -/
def Yaml.getDflt (y : Yaml) (key : String) (dflt : Yaml) : Yaml :=
  match y with
  | .obj es => (Yaml.lookupKey es key).getD dflt
  | _ => dflt

/-- Content-type scan of `_detect_api_type`: any media object whose schema
renders with an implicit-subscription keyword. -/
def scanMedia : List (String × Yaml) → Bool
  | [] => false
  | (_, m) :: rest =>
    (m.isObj && schemaHasKeyword (m.getDflt "schema" (.obj []))) || scanMedia rest

/-- Response scan of `_detect_api_type` over `responses.values()`. -/
def scanResponses : List Yaml → Except PyErr Bool
  | [] => .ok false
  | r :: rest =>
    if r.isObj then do
      let content ← r.pyGetD "content" (.obj [])
      let citems ← content.pyItems
      if scanMedia citems then pure true else scanResponses rest
    else scanResponses rest

/-- Operation scan of `_detect_api_type`: callbacks first, then response
content keywords. -/
def scanOps : List (String × Yaml) → Except PyErr Bool
  | [] => .ok false
  | (method, op) :: rest =>
    if httpMethods5.contains method && op.isObj then
      if op.pyContains "callbacks" then .ok true
      else do
        let responses ← op.pyGetD "responses" (.obj [])
        let vals ← responses.pyValues
        if ← scanResponses vals then pure true else scanOps rest
    else scanOps rest

/-- Path-item scan of `_detect_api_type` (non-mapping path items skipped). -/
def scanPathItems : List (String × Yaml) → Except PyErr Bool
  | [] => .ok false
  | (_, pathObj) :: rest =>
    match pathObj with
    | .obj es => do
      if ← scanOps es then pure true else scanPathItems rest
    | _ => scanPathItems rest

/-- The keywords scanned for in component schema names. -/
def schemaNameKeywords : List String :=
  ["subscription", "webhook", "event", "notification"]

/-- Component-schema-name scan of `_detect_api_type`. -/
def scanSchemaNames : List (String × Yaml) → Option APIType
  | [] => none
  | (name, _) :: rest =>
    let nl := pyLower name
    if schemaNameKeywords.any (fun kw => pySubstr kw nl) then
      some (if pySubstr "subscription" nl then .EXPLICIT_SUBSCRIPTION
            else .IMPLICIT_SUBSCRIPTION)
    else scanSchemaNames rest

/-- `_detect_api_type`: the priority-ordered classifier. -/
def detectApiType (apiSpec : Yaml) : Except PyErr APIType := do
  let paths ← apiSpec.pyGetD "paths" (.obj [])
  let keys ← paths.pyKeys
  if keys.any (fun path =>
      subscriptionPatterns.any (fun pat => pySubstr pat (pyLower path))) then
    return .EXPLICIT_SUBSCRIPTION
  let items ← paths.pyItems
  if ← scanPathItems items then
    return .IMPLICIT_SUBSCRIPTION
  let components ← apiSpec.pyGetD "components" (.obj [])
  let schemas ← components.pyGetD "schemas" (.obj [])
  let sitems ← schemas.pyItems
  match scanSchemaNames sitems with
  | some t => return t
  | none => return .REGULAR

namespace Yaml

/-- Python `needle in y` for a string needle; scalars raise `TypeError`. -/
def pyIn (needle : String) (y : Yaml) : Except PyErr Bool :=
  match y with
  | .obj es => .ok (lookupKey es needle).isSome
  | .arr xs => .ok (xs.any (fun v => v == Yaml.str needle))
  | .str s => .ok (pySubstr needle s)
  | _ => .error (.typeError y.typeName)

/-- Python `y[key]` for a string key. -/
def pySubscript (y : Yaml) (key : String) : Except PyErr Yaml :=
  match y with
  | .obj es =>
    (match lookupKey es key with
     | some v => .ok v
     | none => .error (.keyError key))
  | _ => .error (.typeError y.typeName)

/-- Python `y[0]` (`servers[0]`). -/
def pyIndex0 (y : Yaml) : Except PyErr Yaml :=
  match y with
  | .arr (x :: _) => .ok x
  | .arr [] => .error (.typeError "list")
  | .str s =>
    (match s.toList with
     | c :: _ => .ok (Yaml.str (String.mk [c]))
     | [] => .error (.typeError "str"))
  | .obj _ => .error (.keyError "0")
  | _ => .error (.typeError y.typeName)

/-- Python `y.startswith(pre)` / `y.startswith(tuple)`; non-strings raise
`AttributeError`. -/
def pyStartsWithE (y : Yaml) (pres : List String) : Except PyErr Bool :=
  match y with
  | .str s => .ok (pres.any (fun p => pyStartsWith s p))
  | _ => .error (.attrError y.typeName "startswith")

/-- Python `y.lower()`; non-strings raise `AttributeError`. -/
def pyLowerE (y : Yaml) : Except PyErr String :=
  match y with
  | .str s => .ok (pyLower s)
  | _ => .error (.attrError y.typeName "lower")

end Yaml

/-- Python `s.upper()`, per character. -/
def pyUpper (s : String) : String :=
  String.mk (s.toList.map Char.toUpper)

/-- Python `s.strip(c)` for a single strip character. -/
def pyStripChar (s : String) (c : Char) : String :=
  String.mk
    (((s.toList.dropWhile (fun d => d == c)).reverse.dropWhile
        (fun d => d == c)).reverse)

/-- Worker for `subNonAlnumToDash` (previous-was-replaced flag). -/
def subNonAlnumAux : Bool → List Char → List Char
  | _, [] => []
  | prev, c :: rest =>
    if ('a' ≤ c && c ≤ 'z') || pyIsDigit c then
      c :: subNonAlnumAux false rest
    else
      if prev then subNonAlnumAux true rest else '-' :: subNonAlnumAux true rest

/-- `re.sub(r'[^a-z0-9]+', '-', s)`: collapse runs outside the class to `-`. -/
def subNonAlnumToDash (s : String) : String :=
  String.mk (subNonAlnumAux false s.toList)

/-- `pathlib.Path(p).stem`: the final component without its last suffix. -/
def pathStem (p : String) : String :=
  let name := String.mk ((p.toList.reverse.takeWhile (fun c => c != '/')).reverse)
  let cs := name.toList
  let suffixLen := cs.reverse.takeWhile (fun c => c != '.') |>.length
  if suffixLen == cs.length || suffixLen + 1 == cs.length then name
  else String.mk (cs.take (cs.length - suffixLen - 1))

/-- `urlparse(url).path` for the `http(s)://` URLs the extractor meets: the
segment from the first `/` after the authority up to a query or fragment. -/
def urlparsePath (url : String) : String :=
  let cs := url.toList
  let afterScheme :=
    if charsPrefix "https://".toList cs then cs.drop 8
    else if charsPrefix "http://".toList cs then cs.drop 7
    else cs
  let path := afterScheme.dropWhile (fun c => c != '/')
  String.mk (path.takeWhile (fun c => !(c == '?' || c == '#')))

/-- Python `s.lstrip('/')`. -/
def pyLstripSlash (s : String) : String :=
  String.mk (s.toList.dropWhile (fun c => c == '/'))

/-- Minimum of a string list (`sorted(xs)[0]`), for lexicographic order. -/
def pyMinString (x : String) (xs : List String) : String :=
  xs.foldl (fun acc s => if s < acc then s else acc) x

/-- The review context fixed at validator construction. -/
structure ReviewCtx where
  expectedVersion : String := "0.6"
  reviewType : String := "release-candidate"
deriving Repr, DecidableEq

/-- The rules version this validator implements. -/
def implementedVersion : String := "0.6"

/-- `_check_version_mismatch`. -/
def checkVersionMismatch (ctx : ReviewCtx) (apiSpec : Yaml) : PyM Unit := do
  if ctx.expectedVersion != implementedVersion then
    let info ← liftE (apiSpec.pyGetD "info" (.obj []))
    let declared ← liftE (info.pyGetD "x-camara-commonalities" (.str "not specified"))
    emit { severity := .INFO, category := "Version Mismatch",
           description := "Validating with v" ++ implementedVersion ++
             " rules (requested v" ++ ctx.expectedVersion ++ ")",
           location := "validator",
           fixSuggestion := "This validator implements Commonalities v" ++
             implementedVersion ++ " compliance checks" }
    if declared != Yaml.str "not specified" && declared != Yaml.str implementedVersion then
      emit { severity := .LOW, category := "Commonalities Version",
             description := "API declares commonalities v" ++ pyStr declared ++
               " but is being validated against v" ++ implementedVersion ++ " rules",
             location := "info.x-camara-commonalities",
             fixSuggestion := "Results may not accurately reflect v" ++
               pyStr declared ++ " compliance" }

/-- Required components of the authorization template. -/
def authRequiredComponents : List String :=
  ["# Authorization and authentication",
   "Camara Security and Interoperability Profile",
   "Identity and Consent Management",
   "github.com/camaraproject/IdentityAndConsentManagement",
   "authorization flows to be used will be agreed upon during the onboarding process",
   "three-legged access tokens is mandatory",
   "privacy regulations"]

/-- Required components of the error-responses template (v0.6). -/
def errorRequiredComponents : List String :=
  ["# Additional CAMARA error responses",
   "not exhaustive",
   "CAMARA API Design Guide",
   "CAMARA_common.yaml",
   "Commonalities Release",
   "API Readiness Checklist",
   "501 - NOT_IMPLEMENTED"]

/-- Python `', '.join(xs)`. -/
def pyJoinComma : List String → String
  | [] => ""
  | [x] => x
  | x :: rest => x ++ ", " ++ pyJoinComma rest

/-- The components of `required` missing from the normalized description. -/
def missingComponents (required : List String) (desc : String) : List String :=
  let normalizedDesc := normalizeTextForTemplateCheck desc
  required.filter (fun comp =>
    !pySubstr (normalizeTextForTemplateCheck comp) normalizedDesc)

/-- Parse a plain decimal literal into integer part, fraction value and
fraction length (`float(s)` for the version strings that occur here). -/
def parseSimpleFloat (s : String) : Option (Nat × Nat × Nat) :=
  match splitOnChar '.' (pyStrip s) with
  | [a] =>
    if !a.toList.isEmpty && a.toList.all pyIsDigit then
      some (digitsToNat a.toList, 0, 0)
    else none
  | [a, b] =>
    if a.toList.all pyIsDigit && b.toList.all pyIsDigit &&
        !(a.toList.isEmpty && b.toList.isEmpty) then
      some (digitsToNat a.toList, digitsToNat b.toList, b.length)
    else none
  | _ => none

/-- The v0.6 gate of `_validate_error_responses_template`: run the check
unless the expected version parses as a float below `0.6`. -/
def errorTemplateGateRuns (expectedVersion : String) : Bool :=
  match parseSimpleFloat expectedVersion with
  | none => true
  | some (i, f, l) => !(i == 0 && f * 10 < 6 * 10 ^ l)

/-- `_validate_authorization_template`. -/
def validateAuthorizationTemplate (description : Yaml) : PyM Unit := do
  if !description.truthy then
    emit { severity := .CRITICAL, category := "Authorization Template",
           description := "Missing info.description - required for authorization template",
           location := "info.description" }
    return
  match description with
  | .str desc =>
    let missing := missingComponents authRequiredComponents desc
    if !missing.isEmpty then
      emit { severity := .CRITICAL, category := "Authorization Template",
             description := "Missing required authorization template components: " ++
               pyJoinComma missing,
             location := "info.description",
             fixSuggestion := "Add the mandatory authorization template as specified in CAMARA-API-access-and-user-consent.md" }
    if !headerSearch ["authorization", "and", "authentication"] desc then
      emit { severity := .CRITICAL, category := "Authorization Template",
             description := "Missing required '# Authorization and authentication' header",
             location := "info.description" }
  | other => pyThrow (.attrError other.typeName "strip")

/-- `_validate_error_responses_template`. -/
def validateErrorResponsesTemplate (ctx : ReviewCtx) (description : Yaml) : PyM Unit := do
  if !description.truthy then
    return
  if !errorTemplateGateRuns ctx.expectedVersion then
    return
  match description with
  | .str desc =>
    let missing := missingComponents errorRequiredComponents desc
    if !missing.isEmpty then
      emit { severity := .CRITICAL, category := "Error Responses Template",
             description := "Missing required error responses template components: " ++
               pyJoinComma missing,
             location := "info.description",
             fixSuggestion := "Add the mandatory 'Additional CAMARA error responses' template as specified in CAMARA API Design Guide v0.6" }
    if !headerSearch ["additional", "camara", "error", "responses"] desc then
      emit { severity := .CRITICAL, category := "Error Responses Template",
             description := "Missing required '# Additional CAMARA error responses' header",
             location := "info.description" }
  | other => pyThrow (.attrError other.typeName "strip")

/-- `_validate_info_object`. -/
def validateInfoObject (ctx : ReviewCtx) (apiSpec : Yaml) : PyM Unit := do
  addCheck "Info object validation"
  addCheck "Authorization template validation"
  addCheck "Error responses template validation"
  let info ← liftE (apiSpec.pyGetD "info" (.obj []))
  if !info.truthy then
    emit { severity := .CRITICAL, category := "Info Object",
           description := "Missing required `info` object" }
    return
  let title ← liftE (info.pyGetD "title" (.str ""))
  if !title.truthy then
    emit { severity := .CRITICAL, category := "Info Object",
           description := "Missing required `title` field",
           location := "info.title" }
  else
    let hasAPI ← liftE (Yaml.pyIn "API" title)
    if hasAPI then
      emit { severity := .MEDIUM, category := "Info Object",
             description := "Title should not include 'API': `" ++ pyStr title ++ "`",
             location := "info.title",
             fixSuggestion := "Remove 'API' from title" }
  let version ← liftE (info.pyGetD "version" (.str ""))
  let versionBad ←
    if version == Yaml.str "wip" then pure false
    else
      match version with
      | .str s => pure (!semverMatch s)
      | other => pyThrow (.typeError other.typeName)
  if versionBad then
    emit { severity := .CRITICAL, category := "Info Object",
           description := "Invalid version format: `" ++ pyStr version ++ "`",
           location := "info.version",
           fixSuggestion := "Use semantic versioning (`x.y.z` or `x.y.z-rc.n` or `x.y.z-alpha.n`)" }
  let licenseInfo ← liftE (info.pyGetD "license" (.obj []))
  let licenseName ← liftE (licenseInfo.pyGet "name")
  if licenseName != Yaml.str "Apache 2.0" then
    emit { severity := .CRITICAL, category := "Info Object",
           description := "License must be `Apache 2.0`",
           location := "info.license.name" }
  let licenseUrl ← liftE (licenseInfo.pyGet "url")
  if licenseUrl != Yaml.str "https://www.apache.org/licenses/LICENSE-2.0.html" then
    emit { severity := .CRITICAL, category := "Info Object",
           description := "Incorrect license URL",
           location := "info.license.url" }
  let description ← liftE (info.pyGetD "description" (.str ""))
  validateAuthorizationTemplate description
  validateErrorResponsesTemplate ctx description
  let commonalities ← liftE (info.pyGet "x-camara-commonalities")
  if pyStr commonalities != ctx.expectedVersion then
    emit { severity := .MEDIUM, category := "Info Object",
           description := "Expected commonalities `" ++ ctx.expectedVersion ++
             "`, found: `" ++ pyStr commonalities ++ "`",
           location := "info.x-camara-commonalities" }
  if info.pyContains "termsOfService" then
    emit { severity := .MEDIUM, category := "Info Object",
           description := "`termsOfService` should not be in the API definition",
           location := "info.termsOfService",
           fixSuggestion := "Remove `termsOfService` field" }

/-- `_validate_external_docs`. -/
def validateExternalDocs (apiSpec : Yaml) : PyM Unit := do
  addCheck "External documentation validation"
  let externalDocs ← liftE (apiSpec.pyGet "externalDocs")
  if !externalDocs.truthy then
    emit { severity := .CRITICAL, category := "ExternalDocs",
           description := "Missing externalDocs object",
           location := "externalDocs",
           fixSuggestion := "Add externalDocs with description and url" }
    return
  let desc ← liftE (externalDocs.pyGet "description")
  if !desc.truthy then
    emit { severity := .MEDIUM, category := "ExternalDocs",
           description := "Missing externalDocs description",
           location := "externalDocs.description" }
  let url ← liftE (externalDocs.pyGetD "url" (.str ""))
  if !url.truthy then
    emit { severity := .CRITICAL, category := "ExternalDocs",
           description := "Missing externalDocs URL",
           location := "externalDocs.url" }
  else
    let startsHttps ← liftE (url.pyStartsWithE ["https://"])
    if !startsHttps then
      emit { severity := .MEDIUM, category := "ExternalDocs",
             description := "External docs URL should use HTTPS",
             location := "externalDocs.url" }

/-- Loop body of `_validate_servers` over `enumerate(servers)`. -/
def validateServersLoop : Nat → List Yaml → PyM Unit
  | _, [] => pure ()
  | i, server :: rest => do
    let url ← liftE (server.pyGetD "url" (.str ""))
    if !url.truthy then
      emit { severity := .CRITICAL, category := "Servers",
             description := "Server " ++ toString (i + 1) ++ " missing URL",
             location := "servers[" ++ toString i ++ "].url" }
    else
      let ok ← liftE (url.pyStartsWithE ["https://", "\x7bapiRoot\x7d"])
      if !ok then
        emit { severity := .MEDIUM, category := "Servers",
               description := "Server URL should use HTTPS or template: `" ++
                 pyStr url ++ "`",
               location := "servers[" ++ toString i ++ "].url" }
    validateServersLoop (i + 1) rest

/-- `_validate_servers`. -/
def validateServers (apiSpec : Yaml) : PyM Unit := do
  addCheck "Servers validation"
  let servers ← liftE (apiSpec.pyGetD "servers" (.arr []))
  if !servers.truthy then
    emit { severity := .MEDIUM, category := "Servers",
           description := "No servers defined",
           location := "servers" }
    return
  let items ← liftE servers.pyIter
  validateServersLoop 0 items

/-- `_validate_error_response` (the later of the two definitions in the
source, which shadows the earlier one at runtime): validates an error
response, resolving a response-level `$ref` by recursing on the resolved
object.  The recursion carries no cycle guard in the source; the fuel models
the interpreter's recursion limit, with exhaustion raising `RecursionError`. -/
def validateErrorResponse (apiSpec : Yaml) (statusCode opName : String) :
    Nat → Yaml → PyM Unit
  | 0, _ => pyThrow .recursionError
  | fuel + 1, response => do
    let hasRef ← liftE (Yaml.pyIn "$ref" response)
    if hasRef then
      let refPath ← liftE (response.pySubscript "$ref")
      let resolved ←
        match refPath with
        | .str r => pure (resolveReference r apiSpec)
        | other => pyThrow (.attrError other.typeName "startswith")
      if resolved.truthy then
        validateErrorResponse apiSpec statusCode opName fuel resolved
      else
        emit { severity := .CRITICAL, category := "Error Responses",
               description := "Cannot resolve response reference: " ++ pyStr refPath,
               location := opName ++ ".responses." ++ statusCode }
    else
      let content ← liftE (response.pyGetD "content" (.obj []))
      let hasJson ← liftE (Yaml.pyIn "application/json" content)
      if !hasJson then
        emit { severity := .MEDIUM, category := "Error Responses",
               description := "Error response " ++ statusCode ++
                 " should have application/json content",
               location := opName ++ ".responses." ++ statusCode }
        return
      let jsonContent ← liftE (content.pyGetD "application/json" (.obj []))
      let schema ← liftE (jsonContent.pyGetD "schema" (.obj []))
      match schema with
      | .obj ses =>
        if (Yaml.lookupKey ses "$ref").isSome then
          let ref := (Yaml.lookupKey ses "$ref").getD (.str "")
          let hasErrorInfo ← liftE (Yaml.pyIn "#/components/schemas/ErrorInfo" ref)
          if !hasErrorInfo then
            emit { severity := .MEDIUM, category := "Error Responses",
                   description := "Error response " ++ statusCode ++
                     " should reference ErrorInfo schema",
                   location := opName ++ ".responses." ++ statusCode }
        else if (Yaml.lookupKey ses "allOf").isSome then
          let allOfItems := (Yaml.lookupKey ses "allOf").getD (.arr [])
          let items ← liftE allOfItems.pyIter
          let hasErrorInfo ← allOfHasErrorInfo items
          if !hasErrorInfo then
            emit { severity := .MEDIUM, category := "Error Responses",
                   description := "Error response " ++ statusCode ++
                     " should reference ErrorInfo schema",
                   location := opName ++ ".responses." ++ statusCode }
        else
          emit { severity := .MEDIUM, category := "Error Responses",
                 description := "Error response " ++ statusCode ++
                   " should reference ErrorInfo schema",
                 location := opName ++ ".responses." ++ statusCode }
      | _ => pure ()
where
  /-- The `allOf` scan for an `ErrorInfo` reference, with early exit. -/
  allOfHasErrorInfo : List Yaml → PyM Bool
    | [] => pure false
    | item :: rest => do
      match item with
      | .obj ies =>
        (match Yaml.lookupKey ies "$ref" with
         | some refv => do
           let hit ← liftE (Yaml.pyIn "#/components/schemas/ErrorInfo" refv)
           if hit then pure true else allOfHasErrorInfo rest
         | none => allOfHasErrorInfo rest)
      | _ => allOfHasErrorInfo rest

/-- The recursion budget modelling CPython's default recursion limit. -/
def recursionBudget : Nat := 1000

/-- `_validate_responses`. -/
def validateResponses (apiSpec : Yaml) (responses : Yaml) (opName : String) :
    PyM Unit := do
  let hits ← liftE (["200", "201", "202", "204"].mapM (fun c => Yaml.pyIn c responses))
  if !hits.any id then
    emit { severity := .MEDIUM, category := "Responses",
           description := "No success response (2xx) defined",
           location := opName ++ ".responses" }
  errorCodesLoop ["400", "401", "403", "404"]
where
  errorCodesLoop : List String → PyM Unit
    | [] => pure ()
    | code :: rest => do
      let present ← liftE (Yaml.pyIn code responses)
      if present then
        let response ← liftE (responses.pySubscript code)
        if response.isObj then
          validateErrorResponse apiSpec code opName recursionBudget response
      errorCodesLoop rest

/-- `_validate_operation_security`. -/
def validateOperationSecurity (operation : Yaml) (opName : String) : PyM Unit := do
  let security ← liftE (operation.pyGet "security")
  let isCallback :=
    pySubstr "callbacks" (pyLower opName) || pySubstr "notification" (pyLower opName)
  if isCallback then
    if security == Yaml.null then
      emit { severity := .CRITICAL, category := "Operation Security",
             description := "Callback operation must have security requirements with notificationsBearerAuth: " ++ opName,
             location := opName ++ ".security" }
    else
      let reqs ← liftE security.pyIter
      let hasNBA := reqs.any (fun r =>
        r.isObj && r.pyContains "notificationsBearerAuth")
      let hasEmpty := reqs.any (fun r =>
        match r with
        | .obj es => es.isEmpty
        | _ => false)
      if !hasNBA then
        emit { severity := .CRITICAL, category := "Operation Security",
               description := "Callback operation must include notificationsBearerAuth: " ++ opName,
               location := opName ++ ".security",
               fixSuggestion := "Add notificationsBearerAuth to security requirements" }
      if hasEmpty && !hasNBA then
        emit { severity := .CRITICAL, category := "Operation Security",
               description := "Callback operation cannot have only empty security, must include notificationsBearerAuth: " ++ opName,
               location := opName ++ ".security" }
  else
    if security.truthy then
      let reqs ← liftE security.pyIter
      let hasOpenId := reqs.any (fun r => r.isObj && r.pyContains "openId")
      if !hasOpenId then
        emit { severity := .MEDIUM, category := "Operation Security",
               description := "Operation should use 'openId' security scheme: " ++ opName,
               location := opName ++ ".security" }

/-- `_validate_operation`. -/
def validateOperation (apiSpec : Yaml) (operation : Yaml) (opName : String) :
    PyM Unit := do
  if !operation.isObj then
    return
  if !operation.pyContains "operationId" then
    emit { severity := .CRITICAL, category := "Operation",
           description := "Missing operationId",
           location := opName }
  if !operation.pyContains "summary" then
    emit { severity := .MEDIUM, category := "Operation",
           description := "Missing summary",
           location := opName }
  if !operation.pyContains "description" then
    emit { severity := .LOW, category := "Operation",
           description := "Missing description",
           location := opName }
  let responses ← liftE (operation.pyGetD "responses" (.obj []))
  if !responses.truthy then
    emit { severity := .CRITICAL, category := "Operation",
           description := "No responses defined",
           location := opName }
  else
    validateResponses apiSpec responses opName
  let security ← liftE (operation.pyGet "security")
  if security == Yaml.null &&
      (pyStartsWith opName "POST" || pyStartsWith opName "PUT" ||
        pyStartsWith opName "DELETE") then
    emit { severity := .MEDIUM, category := "Operation",
           description := "Consider adding security requirements for modifying operations",
           location := opName }
  validateOperationSecurity operation opName

/-- The eight HTTP methods `_validate_paths` dispatches on. -/
def httpMethods8 : List String :=
  ["get", "post", "put", "delete", "patch", "head", "options", "trace"]

/-- Loop of `_validate_paths` over path items and their operations. -/
def validatePathsLoop (apiSpec : Yaml) : List (String × Yaml) → PyM Unit
  | [] => pure ()
  | (path, pathObj) :: rest => do
    match pathObj with
    | .obj es => validatePathOps apiSpec path es
    | _ => pure ()
    validatePathsLoop apiSpec rest
where
  validatePathOps (apiSpec : Yaml) (path : String) :
      List (String × Yaml) → PyM Unit
    | [] => pure ()
    | (method, operation) :: rest => do
      if httpMethods8.contains method then
        validateOperation apiSpec operation (pyUpper method ++ " " ++ path)
      validatePathOps apiSpec path rest

/-- `_validate_paths`. -/
def validatePaths (apiSpec : Yaml) : PyM Unit := do
  addCheck "Paths validation"
  let paths ← liftE (apiSpec.pyGetD "paths" (.obj []))
  if !paths.truthy then
    emit { severity := .CRITICAL, category := "Paths",
           description := "No paths defined" }
    return
  let items ← liftE paths.pyItems
  validatePathsLoop apiSpec items

/-- `_validate_error_info_schema`. -/
def validateErrorInfoSchema (errorInfoSchema : Yaml) : PyM Unit := do
  if !errorInfoSchema.isObj then
    return
  let properties ← liftE (errorInfoSchema.pyGetD "properties" (.obj []))
  propsLoop properties ["code", "message"]
where
  propsLoop (properties : Yaml) : List String → PyM Unit
    | [] => pure ()
    | prop :: rest => do
      let present ← liftE (Yaml.pyIn prop properties)
      if !present then
        emit { severity := .CRITICAL, category := "ErrorInfo Schema",
               description := "Missing required property `" ++ prop ++ "`",
               location := "components.schemas.ErrorInfo.properties" }
      propsLoop properties rest

/-- Deprecated-enum scan of `_validate_schemas`. -/
def deprecatedEnumLoop : List (String × Yaml) → PyM Unit
  | [] => pure ()
  | (schemaName, schemaDef) :: rest => do
    if schemaDef.isObj && schemaDef.pyContains "enum" then
      let enumValues ← liftE (schemaDef.pyGetD "enum" (.arr []))
      let hit ← liftE (Yaml.pyIn "IDENTIFIER_MISMATCH" enumValues)
      if hit then
        emit { severity := .CRITICAL, category := "Error Responses",
               description := "Forbidden error code `IDENTIFIER_MISMATCH` found",
               location := "components.schemas." ++ schemaName,
               fixSuggestion := "Remove `IDENTIFIER_MISMATCH` from enum values" }
    deprecatedEnumLoop rest

/-- `_validate_schemas`. -/
def validateSchemas (schemas : Yaml) : PyM Unit := do
  requiredLoop ["ErrorInfo", "XCorrelator"]
  let hasErrorInfo ← liftE (Yaml.pyIn "ErrorInfo" schemas)
  if hasErrorInfo then
    let errorInfo ← liftE (schemas.pySubscript "ErrorInfo")
    validateErrorInfoSchema errorInfo
  let items ← liftE schemas.pyItems
  deprecatedEnumLoop items
where
  requiredLoop : List String → PyM Unit
    | [] => pure ()
    | schemaName :: rest => do
      let present ← liftE (Yaml.pyIn schemaName schemas)
      if !present then
        emit { severity := .CRITICAL, category := "Components",
               description := "Missing required `" ++ schemaName ++ "` schema",
               location := "components.schemas" }
      requiredLoop rest

/-- `_validate_openid_connect_scheme`. -/
def validateOpenIdConnectScheme (schemeDef : Yaml) (schemeName : String) :
    PyM Unit := do
  if !schemeDef.pyContains "openIdConnectUrl" then
    emit { severity := .CRITICAL, category := "Security Schemes",
           description := "OpenID Connect scheme `" ++ schemeName ++
             "` missing openIdConnectUrl",
           location := "components.securitySchemes." ++ schemeName ++ ".openIdConnectUrl" }
    return
  let connectUrl ← liftE (schemeDef.pyGetD "openIdConnectUrl" (.str ""))
  let startsOk ← liftE (connectUrl.pyStartsWithE ["https://", "http://"])
  if !startsOk then
    emit { severity := .MEDIUM, category := "Security Schemes",
           description := "OpenID Connect URL should use HTTPS: `" ++
             pyStr connectUrl ++ "`",
           location := "components.securitySchemes." ++ schemeName ++ ".openIdConnectUrl" }
  let wellKnown ← liftE (Yaml.pyIn ".well-known/openid-configuration" connectUrl)
  if !wellKnown then
    emit { severity := .MEDIUM, category := "Security Schemes",
           description := "OpenID Connect URL should point to well-known configuration: `" ++
             pyStr connectUrl ++ "`",
           location := "components.securitySchemes." ++ schemeName ++ ".openIdConnectUrl" }

/-- `_validate_notifications_bearer_auth_scheme`. -/
def validateNotificationsBearerAuthScheme (schemeDef : Yaml) (schemeName : String) :
    PyM Unit := do
  let ty ← liftE (schemeDef.pyGet "type")
  if ty != Yaml.str "http" then
    emit { severity := .CRITICAL, category := "Security Schemes",
           description := "Notifications Bearer Auth scheme `" ++ schemeName ++
             "` must have type 'http'",
           location := "components.securitySchemes." ++ schemeName ++ ".type" }
  let scheme ← liftE (schemeDef.pyGet "scheme")
  if scheme != Yaml.str "bearer" then
    emit { severity := .CRITICAL, category := "Security Schemes",
           description := "Notifications Bearer Auth scheme `" ++ schemeName ++
             "` must have scheme 'bearer'",
           location := "components.securitySchemes." ++ schemeName ++ ".scheme" }
  let bearerFormat ← liftE (schemeDef.pyGetD "bearerFormat" (.str ""))
  let hasSink ← liftE (Yaml.pyIn "sinkCredential" bearerFormat)
  if !hasSink then
    emit { severity := .MEDIUM, category := "Security Schemes",
           description := "Notifications Bearer Auth scheme `" ++ schemeName ++
             "` should reference sinkCredential in bearerFormat",
           location := "components.securitySchemes." ++ schemeName ++ ".bearerFormat" }

/-- Per-scheme loop of `_validate_security_schemes_section`. -/
def securitySchemesLoop : List (String × Yaml) → PyM Unit
  | [] => pure ()
  | (schemeName, schemeDef) :: rest => do
    if schemeDef.isObj then
      let schemeType ← liftE (schemeDef.pyGet "type")
      if schemeType == Yaml.str "openIdConnect" then
        validateOpenIdConnectScheme schemeDef schemeName
        if schemeName != "openId" then
          emit { severity := .MEDIUM, category := "Security Schemes",
                 description := "OpenID Connect scheme should be named 'openId', found '" ++
                   schemeName ++ "'",
                 location := "components.securitySchemes." ++ schemeName }
      else if schemeType == Yaml.str "http" && schemeName == "notificationsBearerAuth" then
        validateNotificationsBearerAuthScheme schemeDef schemeName
      else if schemeType == Yaml.str "oauth2" then
        emit { severity := .CRITICAL, category := "Security Schemes",
               description := "Use 'openIdConnect' type instead of 'oauth2' for scheme '" ++
                 schemeName ++ "'",
               location := "components.securitySchemes." ++ schemeName ++ ".type",
               fixSuggestion := "CAMARA requires OpenID Connect, not OAuth2" }
      else if !(schemeType == Yaml.str "openIdConnect" || schemeType == Yaml.str "http") then
        emit { severity := .MEDIUM, category := "Security Schemes",
               description := "Unexpected security scheme type '" ++ pyStr schemeType ++
                 "' for '" ++ schemeName ++ "'",
               location := "components.securitySchemes." ++ schemeName ++ ".type" }
    securitySchemesLoop rest

/-- `_validate_security_schemes_section`. -/
def validateSecuritySchemesSection (apiSpec : Yaml) (securitySchemes : Yaml) :
    PyM Unit := do
  let apiType ← liftE (detectApiType apiSpec)
  let isSubscriptionApi :=
    apiType == APIType.IMPLICIT_SUBSCRIPTION || apiType == APIType.EXPLICIT_SUBSCRIPTION
  let hasOpenId ← liftE (Yaml.pyIn "openId" securitySchemes)
  if !hasOpenId then
    emit { severity := .CRITICAL, category := "Security Schemes",
           description := "Missing required 'openId' security scheme",
           location := "components.securitySchemes",
           fixSuggestion := "Add openId scheme with type: openIdConnect" }
  let hasNBA ← liftE (Yaml.pyIn "notificationsBearerAuth" securitySchemes)
  if isSubscriptionApi && !hasNBA then
    emit { severity := .CRITICAL, category := "Security Schemes",
           description := "Subscription APIs must include 'notificationsBearerAuth' security scheme",
           location := "components.securitySchemes",
           fixSuggestion := "Add notificationsBearerAuth scheme for callback authentication" }
  let items ← liftE securitySchemes.pyItems
  securitySchemesLoop items

/-- `_validate_components`. -/
def validateComponents (apiSpec : Yaml) : PyM Unit := do
  addCheck "Components validation"
  let components ← liftE (apiSpec.pyGetD "components" (.obj []))
  if !components.truthy then
    emit { severity := .MEDIUM, category := "Components",
           description := "No components defined" }
    return
  let schemas ← liftE (components.pyGetD "schemas" (.obj []))
  validateSchemas schemas
  let securitySchemes ← liftE (components.pyGetD "securitySchemes" (.obj []))
  validateSecuritySchemesSection apiSpec securitySchemes

/-- Per-requirement loop of the top-level `_validate_security_schemes`. -/
def topSecurityLoop (securitySchemes : Yaml) : List Yaml → PyM Unit
  | [] => pure ()
  | req :: rest => do
    match req with
    | .obj res => reqKeysLoop (res.map Prod.fst)
    | _ => pure ()
    topSecurityLoop securitySchemes rest
where
  reqKeysLoop : List String → PyM Unit
    | [] => pure ()
    | schemeName :: more => do
      let defined ← liftE (Yaml.pyIn schemeName securitySchemes)
      if !defined then
        emit { severity := .CRITICAL, category := "Security Schemes",
               description := "Undefined security scheme `" ++ schemeName ++ "` referenced",
               location := "security",
               fixSuggestion := "Define `" ++ schemeName ++ "` in components.securitySchemes" }
      reqKeysLoop more

/-- `_validate_security_schemes` (top-level security references). -/
def validateSecuritySchemes (apiSpec : Yaml) : PyM Unit := do
  addCheck "Security configuration validation"
  let security ← liftE (apiSpec.pyGetD "security" (.arr []))
  let components ← liftE (apiSpec.pyGetD "components" (.obj []))
  let securitySchemes ← liftE (components.pyGetD "securitySchemes" (.obj []))
  let reqs ← liftE security.pyIter
  topSecurityLoop securitySchemes reqs

/-- `_check_work_in_progress_version`. -/
def checkWorkInProgressVersion (ctx : ReviewCtx) (apiSpec : Yaml) : PyM Unit := do
  addCheck "Work-in-progress version validation"
  let info ← liftE (apiSpec.pyGetD "info" (.obj []))
  let version ← liftE (info.pyGetD "version" (.str ""))
  if ctx.reviewType == "wip" then
    if version != Yaml.str "wip" then
      emit { severity := .MEDIUM, category := "Version",
             description := "WIP review expects version `wip`, found: `" ++
               pyStr version ++ "`",
             location := "info.version",
             fixSuggestion := "Use version `wip` for work-in-progress development" }
    let servers ← liftE (apiSpec.pyGetD "servers" (.arr []))
    if servers.truthy then
      let server0 ← liftE servers.pyIndex0
      let serverUrl ← liftE (server0.pyGetD "url" (.str ""))
      let hasVwip ← liftE (Yaml.pyIn "vwip" serverUrl)
      if !hasVwip then
        emit { severity := .MEDIUM, category := "Server URL",
               description := "WIP review expects server URL to contain `vwip`",
               location := "servers[0].url",
               fixSuggestion := "Use `vwip` in server URL for work-in-progress development" }
  else
    if version == Yaml.str "wip" then
      emit { severity := .CRITICAL, category := "Version",
             description := "Work-in-progress version `wip` cannot be released",
             location := "info.version",
             fixSuggestion := "Update to proper semantic version (e.g., `0.1.0-rc.1`)" }
    let servers ← liftE (apiSpec.pyGetD "servers" (.arr []))
    if servers.truthy then
      let server0 ← liftE servers.pyIndex0
      let serverUrl ← liftE (server0.pyGetD "url" (.str ""))
      let hasVwip ← liftE (Yaml.pyIn "vwip" serverUrl)
      if hasVwip then
        emit { severity := .CRITICAL, category := "Server URL",
               description := "Work-in-progress server URL (`vwip`) cannot be used in release",
               location := "servers[0].url",
               fixSuggestion := "Update to production server URL" }
  let servers ← liftE (apiSpec.pyGetD "servers" (.arr []))
  if servers.truthy then
    let server0 ← liftE servers.pyIndex0
    let serverUrl ← liftE (server0.pyGetD "url" (.str ""))
    let hasVwip ← liftE (Yaml.pyIn "vwip" serverUrl)
    if hasVwip then
      emit { severity := .CRITICAL, category := "Server URL",
             description := "Work-in-progress server URL (`vwip`) cannot be used in release",
             location := "servers[0].url",
             fixSuggestion := "Update to production server URL" }

/-- 401-response scan of `_check_updated_generic401` (its collected list is
unused by the source; the traversal is kept for its exception behaviour). -/
def scan401Loop : List (String × Yaml) → PyM Unit
  | [] => pure ()
  | (_, pathObj) :: rest => do
    match pathObj with
    | .obj es => scan401Ops es
    | _ => pure ()
    scan401Loop rest
where
  scan401Ops : List (String × Yaml) → PyM Unit
    | [] => pure ()
    | (method, operation) :: more => do
      if httpMethods5.contains method && operation.isObj then
        let responses ← liftE (operation.pyGetD "responses" (.obj []))
        let _ ← liftE (Yaml.pyIn "401" responses)
        scan401Ops more
      else
        scan401Ops more

/-- Enum scan of `_check_updated_generic401`. -/
def generic401EnumLoop : List (String × Yaml) → PyM Unit
  | [] => pure ()
  | (schemaName, schemaDef) :: rest => do
    if schemaDef.isObj && schemaDef.pyContains "enum" then
      let enumValues ← liftE (schemaDef.pyGetD "enum" (.arr []))
      let hit ← liftE (Yaml.pyIn "AUTHENTICATION_REQUIRED" enumValues)
      if hit then
        emit { severity := .MEDIUM, category := "Error Codes",
               description := "Use `UNAUTHENTICATED` instead of `AUTHENTICATION_REQUIRED`",
               location := "components.schemas." ++ schemaName,
               fixSuggestion := "Replace `AUTHENTICATION_REQUIRED` with `UNAUTHENTICATED`" }
    generic401EnumLoop rest

/-- `_check_updated_generic401`. -/
def checkUpdatedGeneric401 (apiSpec : Yaml) : PyM Unit := do
  addCheck "Generic 401 error validation (v0.6)"
  let paths ← liftE (apiSpec.pyGetD "paths" (.obj []))
  let items ← liftE paths.pyItems
  scan401Loop items
  let components ← liftE (apiSpec.pyGetD "components" (.obj []))
  let schemas ← liftE (components.pyGetD "schemas" (.obj []))
  let sitems ← liftE schemas.pyItems
  generic401EnumLoop sitems

/-- Scope-list loop of `_check_scope_naming_patterns`. -/
def scopeNamesLoop (opName : String) : List Yaml → PyM Unit
  | [] => pure ()
  | scope :: rest => do
    match scope with
    | .str s =>
      if !scopeMatch s then
        emit { severity := .MEDIUM, category := "Scope Naming",
               description := "Scope name should follow pattern `api-name:[resource:]action`: `" ++
                 s ++ "`",
               location := opName ++ ".security" }
    | other => pyThrow (.typeError other.typeName)
    scopeNamesLoop opName rest

/-- Security-requirement loop of `_check_scope_naming_patterns`. -/
def scopeReqsLoop (opName : String) : List Yaml → PyM Unit
  | [] => pure ()
  | req :: rest => do
    match req with
    | .obj res => scopeEntries res
    | _ => pure ()
    scopeReqsLoop opName rest
where
  scopeEntries : List (String × Yaml) → PyM Unit
    | [] => pure ()
    | (_, scopes) :: more => do
      match scopes with
      | .arr xs => scopeNamesLoop opName xs
      | _ => pure ()
      scopeEntries more

/-- Path/operation loop of `_check_scope_naming_patterns`. -/
def scopePathsLoop : List (String × Yaml) → PyM Unit
  | [] => pure ()
  | (path, pathObj) :: rest => do
    match pathObj with
    | .obj es => scopeOps path es
    | _ => pure ()
    scopePathsLoop rest
where
  scopeOps (path : String) : List (String × Yaml) → PyM Unit
    | [] => pure ()
    | (method, operation) :: more => do
      if httpMethods5.contains method && operation.isObj then
        let security ← liftE (operation.pyGetD "security" (.arr []))
        let reqs ← liftE security.pyIter
        scopeReqsLoop (pyUpper method ++ " " ++ path) reqs
      scopeOps path more

/-- `_check_scope_naming_patterns` (the scheme-level loop of the source only
skips every scheme kind, so only its `items()` access is observable). -/
def checkScopeNamingPatterns (apiSpec : Yaml) : PyM Unit := do
  addCheck "Scope naming pattern validation"
  let components ← liftE (apiSpec.pyGetD "components" (.obj []))
  let securitySchemes ← liftE (components.pyGetD "securitySchemes" (.obj []))
  let _ ← liftE securitySchemes.pyItems
  let paths ← liftE (apiSpec.pyGetD "paths" (.obj []))
  let items ← liftE paths.pyItems
  scopePathsLoop items

/-- Per-server name collection of `_extract_api_name_from_servers`. -/
def extractNamesLoop : List Yaml → Except PyErr (List String)
  | [] => .ok []
  | server :: rest => do
    let url ← server.pyGetD "url" (.str "")
    if !url.truthy then
      extractNamesLoop rest
    else do
      let isTemplate ← url.pyStartsWithE ["\x7bapiRoot\x7d/"]
      let isHttp ← url.pyStartsWithE ["http://", "https://"]
      let urlStr := pyStr url
      let path :=
        if isTemplate then pyStrDrop 10 urlStr
        else if isHttp then pyLstripSlash (urlparsePath urlStr)
        else pyLstripSlash urlStr
      let pathParts := (splitOnChar '/' path).filter (fun p => p != "")
      let names ← extractNamesLoop rest
      match pathParts with
      | apiName :: _ :: _ => .ok (apiName :: names)
      | [apiName] => .ok (if vDigitMatch apiName then names else apiName :: names)
      | [] => .ok names

/-- `_extract_api_name_from_servers`: the unique api-name across servers, or
the lexicographically first when they disagree. -/
def extractApiNameFromServers (apiSpec : Yaml) : Except PyErr (Option String) := do
  let servers ← apiSpec.pyGetD "servers" (.arr [])
  if !servers.truthy then
    return none
  let items ← servers.pyIter
  let collected ← extractNamesLoop items
  let apiNames := dedupFirst collected
  match apiNames with
  | [] => return none
  | [n] => return some n
  | n :: more => return some (pyMinString n more)

/-- `_check_filename_consistency`. -/
def checkFilenameConsistency (filePath : String) (apiSpec : Yaml) : PyM Unit := do
  addCheck "Filename consistency validation"
  let filename := pathStem filePath
  if !kebabMatch filename then
    emit { severity := .CRITICAL, category := "File Naming",
           description := "Filename should use kebab-case: `" ++ filename ++ "`",
           location := filePath,
           fixSuggestion := "Use lowercase letters, numbers, and hyphens only" }
  let apiNameOpt ← liftE (extractApiNameFromServers apiSpec)
  match apiNameOpt with
  | some apiName =>
    if filename != apiName then
      emit { severity := .CRITICAL, category := "File Naming",
             description := "Filename `" ++ filename ++ "` doesn't match api-name `" ++
               apiName ++ "` from servers URL",
             location := filePath,
             fixSuggestion := "Rename file to `" ++ apiName ++
               ".yaml` to match the api-name from servers[*].url" }
    let info ← liftE (apiSpec.pyGetD "info" (.obj []))
    let title ← liftE (info.pyGetD "title" (.str ""))
    if title.truthy then
      let titleLower ← liftE title.pyLowerE
      let apiNameWords := String.mk
        (apiName.toList.map (fun c => if c == '-' then ' ' else c))
      let longWords := (splitOnChar '-' apiName).filter (fun w => w.length > 3)
      if !pySubstr apiNameWords titleLower &&
          !longWords.any (fun w => pySubstr w titleLower) then
        emit { severity := .LOW, category := "API Consistency",
               description := "API title `" ++ pyStr title ++
                 "` may not align with api-name `" ++ apiName ++ "`",
               location := "info.title",
               fixSuggestion := "Consider if title should reference concepts from api-name `" ++
                 apiName ++ "`" }
  | none =>
    emit { severity := .MEDIUM, category := "Server Configuration",
           description := "Cannot extract api-name from servers[*].url for filename validation",
           location := "servers",
           fixSuggestion := "Ensure servers[*].url follows format: \x7bapiRoot\x7d/<api-name>/<api-version>" }
    let info ← liftE (apiSpec.pyGetD "info" (.obj []))
    let titleRaw ← liftE (info.pyGetD "title" (.str ""))
    let title ← liftE titleRaw.pyLowerE
    if title != "" then
      let titleAsFilename := pyStripChar (subNonAlnumToDash title) '-'
      if titleAsFilename != "" && filename != titleAsFilename then
        emit { severity := .INFO, category := "File Naming",
               description := "Filename `" ++ filename ++
                 "` doesn't match title pattern `" ++ titleAsFilename ++ "`",
               location := filePath,
               fixSuggestion := "Consider aligning filename with API title (as fallback when api-name unavailable)" }

/-- Loop of `_check_mandatory_error_responses`. -/
def mandatory400Loop : List (String × Yaml) → PyM Unit
  | [] => pure ()
  | (path, pathObj) :: rest => do
    match pathObj with
    | .obj es => mandatory400Ops path es
    | _ => pure ()
    mandatory400Loop rest
where
  mandatory400Ops (path : String) : List (String × Yaml) → PyM Unit
    | [] => pure ()
    | (method, operation) :: more => do
      if httpMethods5.contains method && operation.isObj then
        let responses ← liftE (operation.pyGetD "responses" (.obj []))
        let has400 ← liftE (Yaml.pyIn "400" responses)
        if !has400 then
          emit { severity := .MEDIUM, category := "Error Responses",
                 description := "Missing 400 (Bad Request) response",
                 location := pyUpper method ++ " " ++ path ++ ".responses",
                 fixSuggestion := "Add 400 response for validation errors" }
      mandatory400Ops path more

/-- `_check_mandatory_error_responses`. -/
def checkMandatoryErrorResponses (apiSpec : Yaml) : PyM Unit := do
  addCheck "Mandatory error responses validation"
  let paths ← liftE (apiSpec.pyGetD "paths" (.obj []))
  let items ← liftE paths.pyItems
  mandatory400Loop items

/-- Loop of `_check_server_url_format` over `enumerate(servers)`. -/
def serverUrlFormatLoop : Nat → List Yaml → PyM Unit
  | _, [] => pure ()
  | i, server :: rest => do
    if server.isObj then
      let url ← liftE (server.pyGetD "url" (.str ""))
      if url.truthy then
        let ok ← liftE (url.pyStartsWithE ["\x7bapiRoot\x7d", "https://"])
        if !ok then
          emit { severity := .MEDIUM, category := "Server URL",
                 description := "Server URL should use HTTPS or template variable: `" ++
                   pyStr url ++ "`",
                 location := "servers[" ++ toString i ++ "].url",
                 fixSuggestion := "Use `\x7bapiRoot\x7d` template or HTTPS URL" }
    serverUrlFormatLoop (i + 1) rest

/-- `_check_server_url_format`. -/
def checkServerUrlFormat (apiSpec : Yaml) : PyM Unit := do
  addCheck "Server URL format validation"
  let servers ← liftE (apiSpec.pyGetD "servers" (.arr []))
  let items ← liftE servers.pyIter
  serverUrlFormatLoop 0 items

/-- The expected v0.6 X-Correlator pattern literal. -/
def xCorrelatorPattern : String :=
  "^\\w\x7b8\x7d-\\w\x7b4\x7d-4\\w\x7b3\x7d-[89aAbB]\\w\x7b3\x7d-\\w\x7b12\x7d$"

/-- `_check_commonalities_schema_compliance`. -/
def checkCommonalitiesSchemaCompliance (apiSpec : Yaml) : PyM Unit := do
  addCheck "Commonalities schema compliance validation"
  let components ← liftE (apiSpec.pyGetD "components" (.obj []))
  let _ ← liftE (components.pyGetD "schemas" (.obj []))
  let parameters ← liftE (components.pyGetD "parameters" (.obj []))
  let hasXCorrelator ← liftE (Yaml.pyIn "X-Correlator" parameters)
  if hasXCorrelator then
    let xCorrelator ← liftE (parameters.pySubscript "X-Correlator")
    if xCorrelator.isObj then
      let schema ← liftE (xCorrelator.pyGetD "schema" (.obj []))
      let pattern ← liftE (schema.pyGet "pattern")
      if pattern != Yaml.str xCorrelatorPattern then
        emit { severity := .MEDIUM, category := "XCorrelator Pattern",
               description := "XCorrelator pattern should follow Commonalities 0.6 specification",
               location := "components.parameters.X-Correlator.schema.pattern",
               fixSuggestion := "Use pattern: `" ++ xCorrelatorPattern ++ "`" }

/-- `_check_event_subscription_compliance` (the `_current_api_type` attribute
is never set anywhere in the source, so the classifier always runs). -/
def checkEventSubscriptionCompliance (apiSpec : Yaml) : PyM Unit := do
  addCheck "Event subscription compliance validation"
  let apiType ← liftE (detectApiType apiSpec)
  if apiType == APIType.EXPLICIT_SUBSCRIPTION ||
      apiType == APIType.IMPLICIT_SUBSCRIPTION then
    let components ← liftE (apiSpec.pyGetD "components" (.obj []))
    let schemas ← liftE (components.pyGetD "schemas" (.obj []))
    let names ← liftE schemas.pyKeys
    let eventFound := names.any (fun n => pySubstr "event" (pyLower n))
    let subscriptionFound := names.any (fun n => pySubstr "subscription" (pyLower n))
    if apiType == APIType.EXPLICIT_SUBSCRIPTION && !subscriptionFound then
      emit { severity := .MEDIUM, category := "Subscription Schemas",
             description := "Explicit subscription API should define subscription-related schemas",
             location := "components.schemas",
             fixSuggestion := "Add schemas for subscription management" }
    if !eventFound then
      emit { severity := .LOW, category := "Event Schemas",
             description := "Subscription API should define event-related schemas",
             location := "components.schemas",
             fixSuggestion := "Consider adding event payload schemas" }

/-- Per-path loop of `_check_explicit_subscription_compliance`. -/
def explicitSubPathsLoop (paths : Yaml) : List String → PyM Unit
  | [] => pure ()
  | path :: rest => do
    let pathObj ← liftE (paths.pyGetD path (.obj []))
    match pathObj with
    | .obj es =>
      let methods := (es.map Prod.fst).filter
        (fun m => ["get", "post", "put", "delete"].contains m)
      if methods.isEmpty then
        emit { severity := .MEDIUM, category := "Subscription Operations",
               description := "Subscription path `" ++ path ++ "` has no operations defined",
               location := "paths." ++ path }
    | _ => pure ()
    explicitSubPathsLoop paths rest

/-- `_check_explicit_subscription_compliance`. -/
def checkExplicitSubscriptionCompliance (apiSpec : Yaml) : PyM Unit := do
  addCheck "Explicit subscription API compliance validation"
  let paths ← liftE (apiSpec.pyGetD "paths" (.obj []))
  let keys ← liftE paths.pyKeys
  let subscriptionPaths := keys.filter (fun p => pySubstr "subscription" (pyLower p))
  if subscriptionPaths.isEmpty then
    emit { severity := .CRITICAL, category := "Subscription Endpoints",
           description := "Explicit subscription API must have subscription endpoints",
           location := "paths",
           fixSuggestion := "Add /subscriptions endpoints for CRUD operations" }
    return
  explicitSubPathsLoop paths subscriptionPaths

/-- `_check_implicit_subscription_compliance`. -/
def checkImplicitSubscriptionCompliance (apiSpec : Yaml) : PyM Unit := do
  addCheck "Implicit subscription API compliance validation"
  let paths ← liftE (apiSpec.pyGetD "paths" (.obj []))
  let vals ← liftE paths.pyValues
  let hasCallbacks := vals.any (fun pathObj =>
    match pathObj with
    | .obj es => es.any (fun kv => kv.2.isObj && kv.2.pyContains "callbacks")
    | _ => false)
  if !hasCallbacks then
    emit { severity := .MEDIUM, category := "Implicit Subscription",
           description := "Implicit subscription API should define callbacks",
           location := "paths",
           fixSuggestion := "Add callback definitions for event notifications" }

/-- `_get_manual_checks_for_type`. -/
def getManualChecksForType (apiType : APIType) : List String :=
  let commonChecks :=
    ["Info.description for device or phone number (if applicable)",
     "Business logic appropriateness review",
     "Documentation quality assessment",
     "API design patterns validation",
     "Use case coverage evaluation",
     "Security considerations beyond structure",
     "Performance implications assessment"]
  match apiType with
  | .EXPLICIT_SUBSCRIPTION =>
    commonChecks ++
      ["Subscription lifecycle management review",
       "Event delivery mechanism validation",
       "Webhook endpoint security review",
       "Subscription filtering logic validation"]
  | .IMPLICIT_SUBSCRIPTION =>
    commonChecks ++
      ["Event callback mechanism review",
       "Implicit subscription trigger validation",
       "Event payload structure review"]
  | .REGULAR => commonChecks

/-- The setup lines at the head of the `try:` block of `validate_api_file`:
basic info extraction, api-name derivation with filename fallback, version
and API-type assignment. -/
def batterySetup (_ctx : ReviewCtx) (filePath : String) (doc : Yaml) : PyM Unit := do
  let info ← liftE (doc.pyGetD "info" (.obj []))
  let apiNameOpt ← liftE (extractApiNameFromServers doc)
  let apiName ←
    match apiNameOpt with
    | some n =>
      if n == "" then do
        emit { severity := .MEDIUM, category := "Server Configuration",
               description := "Cannot extract api-name from servers[*].url",
               location := "servers",
               fixSuggestion := "Ensure servers[*].url follows format: \x7bapiRoot\x7d/<api-name>/<api-version>" }
        pure (pathStem filePath)
      else
        pure n
    | none => do
      emit { severity := .MEDIUM, category := "Server Configuration",
             description := "Cannot extract api-name from servers[*].url",
             location := "servers",
             fixSuggestion := "Ensure servers[*].url follows format: \x7bapiRoot\x7d/<api-name>/<api-version>" }
      pure (pathStem filePath)
  modifyS (fun s => { s with apiName := apiName })
  let version ← liftE (info.pyGetD "version" (.str "unknown"))
  modifyS (fun s => { s with version := version })
  let apiType ← liftE (detectApiType doc)
  modifyS (fun s => { s with apiType := apiType })
  addCheck ("API type detection: " ++ apiType.value)

/-- The type-specific dispatch at the end of the battery. -/
def typeSpecificChecks (doc : Yaml) : PyM Unit := do
  let s ← getS
  if s.apiType == APIType.EXPLICIT_SUBSCRIPTION then
    checkExplicitSubscriptionCompliance doc
  else if s.apiType == APIType.IMPLICIT_SUBSCRIPTION then
    checkImplicitSubscriptionCompliance doc

/-- `result.manual_checks_needed = self._get_manual_checks_for_type(...)`. -/
def setManualChecks : PyM Unit :=
  modifyS (fun st => { st with manual := getManualChecksForType st.apiType })

/-- The battery of the `try:` block, in source order. -/
def batteryChecks (ctx : ReviewCtx) (filePath : String) (doc : Yaml) :
    List (PyM Unit) :=
  [batterySetup ctx filePath doc,
   checkVersionMismatch ctx doc,
   validateInfoObject ctx doc,
   validateExternalDocs doc,
   validateServers doc,
   validatePaths doc,
   validateComponents doc,
   validateSecuritySchemes doc,
   checkWorkInProgressVersion ctx doc,
   checkUpdatedGeneric401 doc,
   checkScopeNamingPatterns doc,
   checkFilenameConsistency filePath doc,
   checkMandatoryErrorResponses doc,
   checkServerUrlFormat doc,
   checkCommonalitiesSchemaCompliance doc,
   checkEventSubscriptionCompliance doc,
   typeSpecificChecks doc,
   setManualChecks]

/-- Sequential execution of a list of statements. -/
def runSeq : List (PyM Unit) → PyM Unit
  | [] => pure ()
  | c :: cs => do
    c
    runSeq cs

/-- The `try:`-block body of `validate_api_file` (after the YAML load, which
the embedding replaces by taking the parsed document as input). -/
def batteryBody (ctx : ReviewCtx) (filePath : String) (doc : Yaml) : PyM Unit :=
  runSeq (batteryChecks ctx filePath doc)

/-- The result state as created at the head of `validate_api_file`. -/
def initialVState (ctx : ReviewCtx) (filePath : String) : VState :=
  { filePath := filePath,
    checks := ["CAMARA Commonalities " ++ ctx.expectedVersion ++ " validation"] }

/-- The Critical Issue recorded by the per-file exception handler. -/
def validationErrorIssue (e : PyErr) : Issue :=
  { severity := .CRITICAL, category := "Validation Error",
    description := "Unexpected error: " ++ e.message }

/-- `validate_api_file`: runs the battery under the per-file exception
handler, which converts any escaping exception into one Critical Issue. -/
def validateApiFile (ctx : ReviewCtx) (filePath : String) (doc : Yaml) : VState :=
  (pyTry (batteryBody ctx filePath doc)
    (fun e => emit (validationErrorIssue e)) (initialVState ctx filePath)).1

/-- The documentation-only keys stripped by schema normalization. -/
def docOnlyKeys : List String := ["example", "examples", "description"]

mutual

/-- `_normalize_schema_for_comparison`: recursively strip `example`,
`examples` and `description` keys, preserving all other structure. -/
def normalizeSchemaForComparison : Yaml → Yaml
  | .obj es => .obj (normalizeEntries es)
  | .arr xs => .arr (normalizeItems xs)
  | y => y

/-- Entry-wise normalization of a mapping. -/
def normalizeEntries : List (String × Yaml) → List (String × Yaml)
  | [] => []
  | (k, v) :: rest =>
    if docOnlyKeys.contains k then normalizeEntries rest
    else (k, normalizeSchemaForComparison v) :: normalizeEntries rest

/-- Item-wise normalization of a sequence. -/
def normalizeItems : List Yaml → List Yaml
  | [] => []
  | x :: rest => normalizeSchemaForComparison x :: normalizeItems rest

end

mutual

/-- Two schema trees differ only in documentation-only entries: equal
scalars, pointwise-related sequences, and mappings that agree (in order) on
their non-documentation entries while inserting or altering `example`,
`examples` and `description` entries freely, at any depth. -/
inductive DiffOnlyDoc : Yaml → Yaml → Prop
  | refl (y : Yaml) : DiffOnlyDoc y y
  | arr {xs ys : List Yaml} : DiffOnlyDocList xs ys → DiffOnlyDoc (.arr xs) (.arr ys)
  | obj {es fs : List (String × Yaml)} :
      DiffOnlyDocEntries es fs → DiffOnlyDoc (.obj es) (.obj fs)

/-- Pointwise lifting of `DiffOnlyDoc` to sequences. -/
inductive DiffOnlyDocList : List Yaml → List Yaml → Prop
  | nil : DiffOnlyDocList [] []
  | cons {x y xs ys} :
      DiffOnlyDoc x y → DiffOnlyDocList xs ys → DiffOnlyDocList (x :: xs) (y :: ys)

/-- Lifting of `DiffOnlyDoc` to mapping entries: matching keys relate their
values; documentation-only keys may be skipped on either side. -/
inductive DiffOnlyDocEntries : List (String × Yaml) → List (String × Yaml) → Prop
  | nil : DiffOnlyDocEntries [] []
  | cons {k v w es fs} :
      DiffOnlyDoc v w → DiffOnlyDocEntries es fs →
      DiffOnlyDocEntries ((k, v) :: es) ((k, w) :: fs)
  | skipLeft {k v es fs} :
      docOnlyKeys.contains k = true → DiffOnlyDocEntries es fs →
      DiffOnlyDocEntries ((k, v) :: es) fs
  | skipRight {k w es fs} :
      docOnlyKeys.contains k = true → DiffOnlyDocEntries es fs →
      DiffOnlyDocEntries es ((k, w) :: fs)

end

/-- Effectful map in source order over `Except` (the Python `for` loops that
build one list element per iteration and stop at the first exception). -/
def exceptMapM {e a b : Type} (f : a → Except e b) : List a → Except e (List b)
  | [] => .ok []
  | x :: xs => do
    let y ← f x
    let ys ← exceptMapM f xs
    pure (y :: ys)

/-- One alignment result per specification (`TestAlignmentResult`). -/
structure TAResult where
  apiFile : String
  testFiles : List String := []
  issues : List Issue := []
  checks : List String := []
deriving Repr, DecidableEq

/-- Step 3 of the mapper: a test base name matches an api-name exactly or as
`api-name + "-"` prefix. -/
def matchesTest (apiName testStem : String) : Bool :=
  testStem == apiName || pyStartsWith testStem (apiName ++ "-")

/-- One api-name's dict update for one test base name: assign on first
match, reassign when the new match is strictly longer. -/
def assignStep (testStem : String) (cur : Option String) (name : String) :
    Option String :=
  if matchesTest name testStem then
    match cur with
    | none => some name
    | some c => if name.length > c.length then some name else some c
  else cur

/-- The assignment kept for one test base name after scanning all api-names
in order: first match is kept and a strictly longer match replaces it (the
per-stem projection of the `test_file_assignments` dict updates). -/
def assignFor (apiNames : List String) (testStem : String) : Option String :=
  apiNames.foldl (assignStep testStem) none

/-- Canonical-name derivation of the mapper: server-URL extraction with
filename-stem fallback on failure, emptiness or exception. -/
def deriveApiName (apiFile : String) (spec : Except String Yaml) : String :=
  match spec with
  | .error _ => pathStem apiFile
  | .ok y =>
    match extractApiNameFromServers y with
    | .error _ => pathStem apiFile
    | .ok none => pathStem apiFile
    | .ok (some n) => if n == "" then pathStem apiFile else n

/-- `_extract_operation_ids`. -/
def extractOperationIds (apiSpec : Yaml) : Except PyErr (List Yaml) := do
  let paths ← apiSpec.pyGetD "paths" (.obj [])
  let items ← paths.pyItems
  items.foldlM
    (fun acc kv => do
      let ops ← kv.2.pyItems
      ops.foldlM
        (fun acc2 mo => do
          if httpMethods5.contains mo.1 then
            let opId ← mo.2.pyGet "operationId"
            if opId.truthy then pure (acc2 ++ [opId]) else pure acc2
          else
            pure acc2)
        acc)
    []

/-- `_extract_test_operations`: quoted request targets, de-duplicated
(`list(set(...))`; the set's iteration order is modelled as first-occurrence
order, which the validation below never depends on). -/
def extractTestOperations (content : String) : List String :=
  dedupFirst (findallRequests content)

/-- `_validate_test_version_line`. -/
def validateTestVersionLine (featureLine : String) (apiVersion : Yaml) : Bool :=
  let found := findallVersions featureLine
  (match apiVersion with
   | .str s => found.contains s
   | _ => false) ||
    found.contains ("v" ++ pyStr apiVersion)

/-- Python `s.replace(pat, '')` for a non-empty pattern: remove every
non-overlapping occurrence, left to right. -/
def pyRemoveAll (pat : String) : Nat → List Char → List Char
  | 0, cs => cs
  | _ + 1, [] => []
  | fuel + 1, c :: rest =>
    if charsPrefix pat.toList (c :: rest) then
      pyRemoveAll pat fuel ((c :: rest).drop pat.length)
    else
      c :: pyRemoveAll pat fuel rest

/-- Python `', '.join(ops)`: raises `TypeError` on a non-string element. -/
def pyJoinStrs (ops : List Yaml) : Except PyErr String := do
  let strs ← exceptMapM (fun o =>
    match o with
    | .str s => Except.ok s
    | other => .error (.typeError other.typeName)) ops
  pure (pyJoinComma strs)

/-- Unknown-operation loop of `_validate_test_file`: one Critical Issue for
each extracted operation id absent from the specification's set. -/
def unknownOpsLoop (testFile : String) (apiOperations : List Yaml) :
    List String → Except PyErr (List Issue)
  | [] => .ok []
  | op :: rest => do
    let more ← unknownOpsLoop testFile apiOperations rest
    if apiOperations.any (fun v => v == Yaml.str op) then
      pure more
    else do
      let joined ← pyJoinStrs apiOperations
      pure ({ severity := .CRITICAL, category := "Test Operation IDs",
              description := "Test references unknown operation `" ++ op ++ "`",
              location := testFile,
              fixSuggestion := "Use valid operation ID from: `" ++ joined ++ "`" } :: more)

/-- The review-type wip cross-check of `_validate_test_file`. -/
def wipIssuesFor (ctx : ReviewCtx) (testFile content : String) : List Issue :=
  if ctx.reviewType == "wip" then
    if !pySubstr "wip" (pyLower content) then
      [{ severity := .MEDIUM, category := "Test Files",
         description := "WIP review expects test files to reference `wip` version",
         location := testFile,
         fixSuggestion := "Update test scenarios to use `wip` version references" }]
    else []
  else
    if pySubstr "wip" (pyLower content) then
      [{ severity := .CRITICAL, category := "Test Files",
         description := "Release review should not contain `wip` references in test files",
         location := testFile,
         fixSuggestion := "Update test scenarios to use proper version references" }]
    else []

/-- The Feature line found among the first two lines, with its line number. -/
def featureLineOf (content : String) : Option (String × Nat) :=
  match (splitOnChar '\n' content).take 2 |>.map pyStrip with
  | l1 :: rest =>
    if pyStartsWith l1 "Feature:" then some (l1, 1)
    else
      (match rest with
       | l2 :: _ => if pyStartsWith l2 "Feature:" then some (l2, 2) else none
       | [] => none)
  | [] => none

/-- The Feature-line issues of `_validate_test_file`. -/
def featureIssuesFor (testFile : String) (apiVersion : Yaml) (content : String) :
    List Issue :=
  match featureLineOf content with
  | some (fl, n) =>
    if !validateTestVersionLine fl apiVersion then
      [{ severity := .MEDIUM, category := "Test Version",
         description := "Feature line doesn't mention API version `" ++
           pyStr apiVersion ++ "`",
         location := testFile ++ ":line " ++ toString n,
         fixSuggestion := "Include version `" ++ pyStr apiVersion ++
           "` in Feature line: " ++ fl }]
    else []
  | none =>
    [{ severity := .MEDIUM, category := "Test Structure",
       description := "No Feature line found in first two lines",
       location := testFile ++ ":lines 1-2",
       fixSuggestion := "Add Feature line with API name and version" }]

/-- The operation-suffix naming notice of `_validate_test_file` (`str.replace`
removes every occurrence of `api-name-`, as in the source). -/
def namingIssuesFor (testFile apiName : String) (apiOperations : List Yaml) :
    Except PyErr (List Issue) := do
  let testFilename := pathStem testFile
  if pyStartsWith testFilename (apiName ++ "-") then
    let expectedOperation := String.mk
      (pyRemoveAll (apiName ++ "-") testFilename.toList.length testFilename.toList)
    if apiOperations.any (fun v => v == Yaml.str expectedOperation) then
      pure []
    else do
      let joined ← pyJoinStrs apiOperations
      pure [{ severity := .LOW, category := "Test File Naming",
              description := "Test file suggests operation `" ++ expectedOperation ++
                "` but it doesn't exist in API",
              location := testFile,
              fixSuggestion := "Check if test file naming is as intended, consider to use valid operation from: `" ++
                joined ++ "`" }]
  else
    pure ([] : List Issue)

/-- `_validate_test_file` (the file read replaced by the contents map; a read
failure carries the exception text). -/
def validateTestFile (ctx : ReviewCtx) (contents : String → Except String String)
    (testFile apiName : String) (apiVersion : Yaml) (apiOperations : List Yaml) :
    Except PyErr (List Issue) := do
  match contents testFile with
  | .error e =>
    pure [{ severity := .CRITICAL, category := "Test File Loading",
            description := "Failed to load test file: " ++ e,
            location := testFile }]
  | .ok content => do
    let unknownIssues ← unknownOpsLoop testFile apiOperations
      (extractTestOperations content)
    let namingIssues ← namingIssuesFor testFile apiName apiOperations
    pure (wipIssuesFor ctx testFile content ++
      featureIssuesFor testFile apiVersion content ++
      unknownIssues ++ namingIssues)

/-- `validate_test_alignment_single`. -/
def validateTestAlignmentSingle (ctx : ReviewCtx)
    (specs : String → Except String Yaml) (contents : String → Except String String)
    (apiFile apiName : String) (assignedTestFiles : List String) :
    Except PyErr TAResult := do
  let base : TAResult :=
    { apiFile := apiFile, testFiles := assignedTestFiles,
      checks := ["Test alignment validation"] }
  match specs apiFile with
  | .error e =>
    pure { base with issues :=
      [{ severity := .CRITICAL, category := "API Loading",
         description := "Failed to load API file: " ++ e,
         location := apiFile }] }
  | .ok apiSpec => do
    let apiInfo ← apiSpec.pyGetD "info" (.obj [])
    let apiVersion ← apiInfo.pyGetD "version" (.str "")
    let _ ← apiInfo.pyGetD "title" (.str "")
    if assignedTestFiles.isEmpty then
      pure { base with issues :=
        [{ severity := .CRITICAL, category := "Test Files",
           description := "No test files found for API `" ++ apiName ++ "`",
           location := "test directory",
           fixSuggestion := "Create either `" ++ apiName ++ ".feature` or `" ++
             apiName ++ "-<operationId>.feature` files" }] }
    else do
      let apiOperations ← extractOperationIds apiSpec
      let issueLists ← exceptMapM (fun tf =>
        validateTestFile ctx contents tf apiName apiVersion apiOperations)
        assignedTestFiles
      pure { base with issues := issueLists.flatten }

/-- The orphan Issue reported for one unmatched test file name. -/
def orphanIssue (testDir orphanFile : String) (allApiNames : List String) : Issue :=
  { severity := .MEDIUM, category := "Orphan Test Files",
    description := "Test file `" ++ orphanFile ++ "` does not match any API",
    location := testDir ++ "/" ++ orphanFile,
    fixSuggestion := "Rename to match an API: " ++ pyJoinComma allApiNames }

/-- One per-specification iteration of the mapper's validation loop: the
test files whose stem is assigned to this api-name, in enumeration order,
passed to `validate_test_alignment_single`. -/
def alignOne (ctx : ReviewCtx) (specs : String → Except String Yaml)
    (contents : String → Except String String) (testDir : String)
    (allApiNames allTestFiles : List String) (fa : String × String) :
    Except PyErr TAResult :=
  validateTestAlignmentSingle ctx specs contents fa.1 fa.2
    ((allTestFiles.filter (fun t => assignFor allApiNames t == some fa.2)).map
      (fun t => testDir ++ "/" ++ t ++ ".feature"))

/-- `map_and_validate_test_files_to_apis`.  File reads are supplied as maps;
`testStems` is `none` when the test directory does not exist.  Per-API test
file lists are produced in test-enumeration order and specification/name
pairing is positional (the source's `list.index` lookup coincides for the
distinct file paths a directory scan yields). -/
def mapAndValidateTestFilesToApis (ctx : ReviewCtx) (apiFiles : List String)
    (specs : String → Except String Yaml) (testDir : String)
    (testStems : Option (List String)) (contents : String → Except String String) :
    Except PyErr (List TAResult) := do
  let allApiNames := apiFiles.map (fun f => deriveApiName f (specs f))
  match testStems with
  | none =>
    pure (apiFiles.map (fun f =>
      { apiFile := f,
        checks := ["Test alignment validation"],
        issues := [{ severity := .CRITICAL, category := "Test Directory",
                     description := "Test directory does not exist: " ++ testDir,
                     location := testDir }] }))
  | some allTestFiles => do
    let results ← exceptMapM
      (alignOne ctx specs contents testDir allApiNames allTestFiles)
      (apiFiles.zip allApiNames)
    let orphanFiles := (allTestFiles.filter
      (fun t => (assignFor allApiNames t).isNone)).map (fun t => t ++ ".feature")
    match results with
    | [] => pure []
    | r0 :: rest =>
      if orphanFiles.isEmpty then
        pure (r0 :: rest)
      else
        pure ({ r0 with issues :=
          r0.issues ++ orphanFiles.map (fun o => orphanIssue testDir o allApiNames) } :: rest)

/-- An `info.description` carrying both mandatory templates: each required
phrase of the authorization and error-responses templates appears verbatim. -/
def tmplDescription : String :=
  "# Authorization and authentication\n" ++
  "Camara Security and Interoperability Profile\n" ++
  "Identity and Consent Management\n" ++
  "github.com/camaraproject/IdentityAndConsentManagement\n" ++
  "authorization flows to be used will be agreed upon during the onboarding process\n" ++
  "three-legged access tokens is mandatory\n" ++
  "privacy regulations\n" ++
  "# Additional CAMARA error responses\n" ++
  "not exhaustive\n" ++
  "CAMARA API Design Guide\n" ++
  "CAMARA_common.yaml\n" ++
  "Commonalities Release\n" ++
  "API Readiness Checklist\n" ++
  "501 - NOT_IMPLEMENTED\n"

/-- The two mandatory shared schemas of a compliant document. -/
def minimalSchemas : List (String × Yaml) :=
  [("ErrorInfo", .obj [("type", .str "object"),
      ("properties", .obj [("code", .obj [("type", .str "string")]),
                           ("message", .obj [("type", .str "string")])])]),
   ("XCorrelator", .obj [("type", .str "string")])]

/-- A minimally compliant document (title, valid version, license, both
description templates, one server, one operation with id/200/400 referencing
the shared error schema, an `openId` scheme), parameterized by its
`components.schemas` entries. -/
def minimalDocWith (schemas : List (String × Yaml)) : Yaml :=
  .obj
    [("info", .obj
        [("title", .str "Example"),
         ("version", .str "0.1.0-rc.1"),
         ("license", .obj [("name", .str "Apache 2.0"),
             ("url", .str "https://www.apache.org/licenses/LICENSE-2.0.html")]),
         ("description", .str tmplDescription),
         ("x-camara-commonalities", .str "0.6")]),
     ("externalDocs", .obj [("description", .str "Docs"),
         ("url", .str "https://example.com")]),
     ("servers", .arr [.obj [("url", .str "\x7bapiRoot\x7d/example/v1")]]),
     ("paths", .obj
        [("/example", .obj
            [("get", .obj
                [("operationId", .str "getExample"),
                 ("summary", .str "Get example"),
                 ("description", .str "Returns the example."),
                 ("responses", .obj
                    [("200", .obj [("description", .str "OK")]),
                     ("400", .obj
                        [("description", .str "Bad Request"),
                         ("content", .obj
                            [("application/json", .obj
                                [("schema", .obj
                                    [("$ref", .str "#/components/schemas/ErrorInfo")])])])])])])])]),
     ("components", .obj
        [("schemas", .obj schemas),
         ("securitySchemes", .obj
            [("openId", .obj
                [("type", .str "openIdConnect"),
                 ("openIdConnectUrl",
                  .str "https://example.com/.well-known/openid-configuration")])])])]

/-- The default review context (v0.6, release-candidate). -/
def rcCtx : ReviewCtx := {}

/-- The wip-review context. -/
def wipCtx : ReviewCtx := { reviewType := "wip" }

/-- A document in work-in-progress state: `info.version = "wip"` and a server
URL carrying the `vwip` marker. -/
def wipMarkedDoc : Yaml :=
  .obj [("info", .obj [("version", .str "wip")]),
        ("servers", .arr [.obj [("url", .str "\x7bapiRoot\x7d/example/vwip")]])]

/-- A fresh result state for running one check in isolation. -/
def initState : VState := { filePath := "example.yaml" }

/-- A document whose error-response reference chain is a cycle: the reused
response resolves back to itself. -/
def cyclicRefSpec : Yaml :=
  .obj [("components", .obj [("responses", .obj
    [("Loop", .obj [("$ref", .str "#/components/responses/Loop")])])])]

/-- The error response of `cyclicRefSpec`: a `$ref` whose resolution is the
same `$ref` object again. -/
def cyclicRefResponse : Yaml :=
  .obj [("$ref", .str "#/components/responses/Loop")]

/-- Entries of a mapping document (empty for non-mappings). -/
def Yaml.getEntries : Yaml → List (String × Yaml)
  | .obj es => es
  | _ => []

/-- The minimal document with its `externalDocs` sub-tree replaced by an
arbitrary value. -/
def docWithExternalDocs (ext : Yaml) : Yaml :=
  .obj
    (("externalDocs", ext) ::
      (minimalDocWith minimalSchemas).getEntries.filter
        (fun kv => kv.1 != "externalDocs"))

/-- The Critical Issue for a missing mandatory shared schema. -/
def missingSchemaIssue (name : String) : Issue :=
  { severity := .CRITICAL, category := "Components",
    description := "Missing required `" ++ name ++ "` schema",
    location := "components.schemas" }

/-- The check names recorded by a full battery run on a regular document, in
order (the head entry is created before the `try:` block). -/
def regularRunChecks : List String :=
  ["CAMARA Commonalities 0.6 validation",
   "API type detection: Regular API",
   "Info object validation",
   "Authorization template validation",
   "Error responses template validation",
   "External documentation validation",
   "Servers validation",
   "Paths validation",
   "Components validation",
   "Security configuration validation",
   "Work-in-progress version validation",
   "Generic 401 error validation (v0.6)",
   "Scope naming pattern validation",
   "Filename consistency validation",
   "Mandatory error responses validation",
   "Server URL format validation",
   "Commonalities schema compliance validation",
   "Event subscription compliance validation"]

/-- Intermediate result state of the battery on the minimal document family:
`n` check-name entries recorded, the given issues found. -/
def minimalRunState (n : Nat) (issues : List Issue) : VState :=
  { filePath := "example.yaml", apiName := "example",
    version := .str "0.1.0-rc.1", apiType := .REGULAR,
    issues := issues, checks := regularRunChecks.take n }

/-- Shape conditions under which the classifier's response scan cannot raise:
a mapping response must carry a mapping (or absent) `content`. -/
def responseShapeOK (r : Yaml) : Bool :=
  match r with
  | .obj res => ((Yaml.lookupKey res "content").getD (.obj [])).isObj
  | _ => true

/-- Shape conditions for one operation in the classifier scan: unless a
callback block short-circuits the scan, `responses` must be a mapping (or
absent) with well-shaped values. -/
def operationShapeOK (op : Yaml) : Bool :=
  match op with
  | .obj oes =>
    if (Yaml.lookupKey oes "callbacks").isSome then true
    else
      match (Yaml.lookupKey oes "responses").getD (.obj []) with
      | .obj res => res.all (fun kv => responseShapeOK kv.2)
      | _ => false
  | _ => true

/-- Shape conditions for one path item in the classifier scan. -/
def pathItemShapeOK (pathObj : Yaml) : Bool :=
  match pathObj with
  | .obj pes => pes.all (fun mo => !httpMethods5.contains mo.1 || operationShapeOK mo.2)
  | _ => true

/-- Shape conditions under which `_detect_api_type` cannot raise: the
document and its `paths`, `components` and `components.schemas` sub-trees are
mappings where the classifier expects mappings, and every reachable
response/content node it iterates is well-shaped. -/
def detectShapeOK (doc : Yaml) : Bool :=
  match doc with
  | .obj es =>
    (match (Yaml.lookupKey es "paths").getD (.obj []) with
     | .obj pitems => pitems.all (fun kv => pathItemShapeOK kv.2)
     | _ => false) &&
    (match (Yaml.lookupKey es "components").getD (.obj []) with
     | .obj ces =>
       (match (Yaml.lookupKey ces "schemas").getD (.obj []) with
        | .obj _ => true
        | _ => false)
     | _ => false)
  | _ => false

/-- Some operation under some path item declares a callback block (the
implicit-subscription signal of tier 2, as scanned by the classifier). -/
def anyCallbackOp (pitems : List (String × Yaml)) : Bool :=
  pitems.any (fun kv =>
    match kv.2 with
    | .obj pes => pes.any (fun mo =>
        httpMethods5.contains mo.1 && mo.2.isObj && mo.2.pyContains "callbacks")
    | _ => false)

/-- Some path key contains a subscription-path substring, case-insensitively
(the explicit-subscription signal of tier 1). -/
def anySubscriptionPathKey (pitems : List (String × Yaml)) : Bool :=
  pitems.any (fun kv =>
    subscriptionPatterns.any (fun pat => pySubstr pat (pyLower kv.1)))

/-- The description of the orphan Issue for one test base name. -/
def orphanDescriptionFor (stem : String) : String :=
  "Test file `" ++ stem ++ ".feature` does not match any API"

/-- How many orphan Issues for the given test base name a result carries. -/
def countOrphanIssuesFor (r : TAResult) (stem : String) : Nat :=
  (r.issues.filter (fun i =>
    i.category == "Orphan Test Files" &&
      i.description == orphanDescriptionFor stem)).length

/-- The description of the unknown-operation Issue for one identifier. -/
def unknownOpDescriptionFor (op : String) : String :=
  "Test references unknown operation `" ++ op ++ "`"

/-- How many unknown-operation Issues for the given identifier a test-file
validation produced. -/
def countUnknownOpIssuesFor (issues : List Issue) (op : String) : Nat :=
  (issues.filter (fun i =>
    i.category == "Test Operation IDs" &&
      i.description == unknownOpDescriptionFor op)).length

/-- The minimal document with both mandatory shared schemas absent. -/
def minimalDocNoSharedSchemas : Yaml := minimalDocWith []

/-- A schema tree whose `description`/`example` entries are about to change. -/
def c9SchemaOld : Yaml :=
  .obj [("type", .str "object"),
        ("description", .str "old wording"),
        ("properties", .obj
           [("code", .obj [("type", .str "string"), ("example", .str "x")])])]

/-- The same schema tree with documentation-only entries altered, removed and
inserted at several depths. -/
def c9SchemaNew : Yaml :=
  .obj [("type", .str "object"),
        ("properties", .obj
           [("code", .obj [("type", .str "string"),
                           ("examples", .arr [.str "y", .str "z"])])]),
        ("description", .str "new wording")]

/-- Path items carrying both an explicit subscription path and a
callback-declaring operation. -/
def c4WitnessPathItems : List (String × Yaml) :=
  [("/subscriptions", .obj []),
   ("/other", .obj [("post", .obj [("callbacks", .obj [("cb", .obj [])])])])]

/-- A specification-loading map on which every read fails. -/
def failingSpecs : String → Except String Yaml := fun _ => .error "unreadable"

/-- A test-contents map on which every read fails. -/
def failingContents : String → Except String String := fun _ => .error "missing"

/-- The first (only) alignment result of the single-orphan scenario: one
unmatchable test stem against one unreadable specification. -/
def c7WitnessResult : TAResult :=
  { apiFile := "a.yaml",
    checks := ["Test alignment validation"],
    issues := [{ severity := .CRITICAL, category := "API Loading",
                 description := "Failed to load API file: unreadable",
                 location := "a.yaml" },
               orphanIssue "tests" "orphan-stem.feature" ["a"]] }

/-- Test content referencing the same unknown operation three times. -/
def repeatedOpContent : String :=
  "Feature: Example 0.1.0-rc.1\nrequest \"ghost\" then request \"ghost\" then request \"ghost\""

/-- A test-contents map providing one file with `repeatedOpContent`. -/
def repeatedOpContents : String → Except String String := fun f =>
  if f == "tests/example-run.feature" then .ok repeatedOpContent
  else .error "missing"


mutual

theorem yamlBeqRefl : ∀ (y : Yaml), Yaml.beq y y = true
  | .null => rfl
  | .bool a => by simp [Yaml.beq]
  | .num a => by simp [Yaml.beq]
  | .str a => by simp [Yaml.beq]
  | .arr xs => by simp only [Yaml.beq]; exact yamlBeqListRefl xs
  | .obj xs => by simp only [Yaml.beq]; exact yamlBeqEntriesRefl xs

theorem yamlBeqListRefl : ∀ (xs : List Yaml), Yaml.beqList xs xs = true
  | [] => rfl
  | x :: xs => by
    simp only [Yaml.beqList, Bool.and_eq_true]
    exact ⟨yamlBeqRefl x, yamlBeqListRefl xs⟩

theorem yamlBeqEntriesRefl :
    ∀ (xs : List (String × Yaml)), Yaml.beqEntries xs xs = true
  | [] => rfl
  | (k, v) :: xs => by
    simp only [Yaml.beqEntries, Bool.and_eq_true]
    exact ⟨⟨by simp, yamlBeqRefl v⟩, yamlBeqEntriesRefl xs⟩

end

mutual

theorem yamlEqOfBeq : ∀ {x y : Yaml}, Yaml.beq x y = true → x = y
  | .null, .null, _ => rfl
  | .null, .bool b, h => by simp [Yaml.beq] at h
  | .null, .num b, h => by simp [Yaml.beq] at h
  | .null, .str b, h => by simp [Yaml.beq] at h
  | .null, .arr ys, h => by simp [Yaml.beq] at h
  | .null, .obj ys, h => by simp [Yaml.beq] at h
  | .bool a, .null, h => by simp [Yaml.beq] at h
  | .bool a, .bool b, h => by simp [Yaml.beq] at h; rw [h]
  | .bool a, .num b, h => by simp [Yaml.beq] at h
  | .bool a, .str b, h => by simp [Yaml.beq] at h
  | .bool a, .arr ys, h => by simp [Yaml.beq] at h
  | .bool a, .obj ys, h => by simp [Yaml.beq] at h
  | .num a, .null, h => by simp [Yaml.beq] at h
  | .num a, .bool b, h => by simp [Yaml.beq] at h
  | .num a, .num b, h => by simp [Yaml.beq] at h; rw [h]
  | .num a, .str b, h => by simp [Yaml.beq] at h
  | .num a, .arr ys, h => by simp [Yaml.beq] at h
  | .num a, .obj ys, h => by simp [Yaml.beq] at h
  | .str a, .null, h => by simp [Yaml.beq] at h
  | .str a, .bool b, h => by simp [Yaml.beq] at h
  | .str a, .num b, h => by simp [Yaml.beq] at h
  | .str a, .str b, h => by simp [Yaml.beq] at h; rw [h]
  | .str a, .arr ys, h => by simp [Yaml.beq] at h
  | .str a, .obj ys, h => by simp [Yaml.beq] at h
  | .arr xs, .null, h => by simp [Yaml.beq] at h
  | .arr xs, .bool b, h => by simp [Yaml.beq] at h
  | .arr xs, .num b, h => by simp [Yaml.beq] at h
  | .arr xs, .str b, h => by simp [Yaml.beq] at h
  | .arr xs, .arr ys, h => by
    simp only [Yaml.beq] at h
    exact congrArg Yaml.arr (yamlEqOfBeqList h)
  | .arr xs, .obj ys, h => by simp [Yaml.beq] at h
  | .obj xs, .null, h => by simp [Yaml.beq] at h
  | .obj xs, .bool b, h => by simp [Yaml.beq] at h
  | .obj xs, .num b, h => by simp [Yaml.beq] at h
  | .obj xs, .str b, h => by simp [Yaml.beq] at h
  | .obj xs, .arr ys, h => by simp [Yaml.beq] at h
  | .obj xs, .obj ys, h => by
    simp only [Yaml.beq] at h
    exact congrArg Yaml.obj (yamlEqOfBeqEntries h)

theorem yamlEqOfBeqList : ∀ {xs ys : List Yaml}, Yaml.beqList xs ys = true → xs = ys
  | [], [], _ => rfl
  | [], _ :: _, h => by simp [Yaml.beqList] at h
  | _ :: _, [], h => by simp [Yaml.beqList] at h
  | x :: xs, y :: ys, h => by
    simp only [Yaml.beqList, Bool.and_eq_true] at h
    rw [yamlEqOfBeq h.1, yamlEqOfBeqList h.2]

theorem yamlEqOfBeqEntries :
    ∀ {xs ys : List (String × Yaml)}, Yaml.beqEntries xs ys = true → xs = ys
  | [], [], _ => rfl
  | [], _ :: _, h => by simp [Yaml.beqEntries] at h
  | _ :: _, [], h => by simp [Yaml.beqEntries] at h
  | (k, v) :: xs, (k2, v2) :: ys, h => by
    simp only [Yaml.beqEntries, Bool.and_eq_true] at h
    obtain ⟨⟨hk, hv⟩, hrest⟩ := h
    simp only [beq_iff_eq] at hk
    rw [hk, yamlEqOfBeq hv, yamlEqOfBeqEntries hrest]

end

instance : DecidableEq Yaml := fun x y =>
  if h : Yaml.beq x y = true then .isTrue (yamlEqOfBeq h)
  else .isFalse (fun he => h (he ▸ yamlBeqRefl x))

instance {e a : Type} [DecidableEq e] [DecidableEq a] : DecidableEq (Except e a) :=
  fun x y =>
    match x, y with
    | .ok u, .ok v =>
      if h : u = v then .isTrue (by rw [h]) else .isFalse (by intro he; cases he; exact h rfl)
    | .error u, .error v =>
      if h : u = v then .isTrue (by rw [h]) else .isFalse (by intro he; cases he; exact h rfl)
    | .ok _, .error _ => .isFalse (by intro he; cases he)
    | .error _, .ok _ => .isFalse (by intro he; cases he)

deriving instance DecidableEq for VState

theorem pymBindApply {α β : Type} (m : PyM α) (f : α → PyM β) (s : VState) :
    (m >>= f) s =
      match m s with
      | (s2, .ok a) => f a s2
      | (s2, .error e) => (s2, .error e) := rfl

theorem pymBindOk {α β : Type} {m : PyM α} {f : α → PyM β} {s s2 : VState}
    {a : α} (h : m s = (s2, .ok a)) : (m >>= f) s = f a s2 := by
  rw [pymBindApply, h]

theorem pymBindErr {α β : Type} {m : PyM α} {f : α → PyM β} {s s2 : VState}
    {e : PyErr} (h : m s = (s2, .error e)) : (m >>= f) s = (s2, .error e) := by
  rw [pymBindApply, h]

theorem runSeqNil (s : VState) : runSeq [] s = (s, .ok ()) := rfl

theorem runSeqStep {c : PyM Unit} {cs : List (PyM Unit)} {s s2 : VState}
    (h : c s = (s2, .ok ())) : runSeq (c :: cs) s = runSeq cs s2 := by
  show (c >>= fun _ => runSeq cs) s = runSeq cs s2
  exact pymBindOk h

theorem runSeqStepErr {c : PyM Unit} {cs : List (PyM Unit)} {s s2 : VState}
    {e : PyErr} (h : c s = (s2, .error e)) :
    runSeq (c :: cs) s = (s2, .error e) := by
  show (c >>= fun _ => runSeq cs) s = (s2, .error e)
  exact pymBindErr h

theorem pyTryOk {body : PyM Unit} {handler : PyErr → PyM Unit} {s s2 : VState}
    (h : body s = (s2, .ok ())) : pyTry body handler s = (s2, .ok ()) := by
  unfold pyTry
  rw [h]

theorem pyTryErr {body : PyM Unit} {handler : PyErr → PyM Unit} {s s2 : VState}
    {e : PyErr} (h : body s = (s2, .error e)) :
    pyTry body handler s = handler e s2 := by
  unfold pyTry
  rw [h]

set_option maxHeartbeats 2000000 in
theorem c8NoSchemasRun :
    validateApiFile rcCtx "example.yaml" minimalDocNoSharedSchemas =
      { minimalRunState 18 [missingSchemaIssue "ErrorInfo", missingSchemaIssue "XCorrelator"] with
         manual := getManualChecksForType APIType.REGULAR } := by
  have ha1 : (batterySetup rcCtx "example.yaml" minimalDocNoSharedSchemas) (initialVState rcCtx "example.yaml") = ((minimalRunState 2 []), .ok ()) := by decide
  have ha2 : (checkVersionMismatch rcCtx minimalDocNoSharedSchemas) (minimalRunState 2 []) = ((minimalRunState 2 []), .ok ()) := by decide
  have ha3 : (validateInfoObject rcCtx minimalDocNoSharedSchemas) (minimalRunState 2 []) = ((minimalRunState 5 []), .ok ()) := by decide
  have ha4 : (validateExternalDocs minimalDocNoSharedSchemas) (minimalRunState 5 []) = ((minimalRunState 6 []), .ok ()) := by decide
  have ha5 : (validateServers minimalDocNoSharedSchemas) (minimalRunState 6 []) = ((minimalRunState 7 []), .ok ()) := by decide
  have ha6 : (validatePaths minimalDocNoSharedSchemas) (minimalRunState 7 []) = ((minimalRunState 8 []), .ok ()) := by decide
  have ha7 : (validateComponents minimalDocNoSharedSchemas) (minimalRunState 8 []) = ((minimalRunState 9 [missingSchemaIssue "ErrorInfo", missingSchemaIssue "XCorrelator"]), .ok ()) := by decide
  have ha8 : (validateSecuritySchemes minimalDocNoSharedSchemas) (minimalRunState 9 [missingSchemaIssue "ErrorInfo", missingSchemaIssue "XCorrelator"]) = ((minimalRunState 10 [missingSchemaIssue "ErrorInfo", missingSchemaIssue "XCorrelator"]), .ok ()) := by decide
  have ha9 : (checkWorkInProgressVersion rcCtx minimalDocNoSharedSchemas) (minimalRunState 10 [missingSchemaIssue "ErrorInfo", missingSchemaIssue "XCorrelator"]) = ((minimalRunState 11 [missingSchemaIssue "ErrorInfo", missingSchemaIssue "XCorrelator"]), .ok ()) := by decide
  have ha10 : (checkUpdatedGeneric401 minimalDocNoSharedSchemas) (minimalRunState 11 [missingSchemaIssue "ErrorInfo", missingSchemaIssue "XCorrelator"]) = ((minimalRunState 12 [missingSchemaIssue "ErrorInfo", missingSchemaIssue "XCorrelator"]), .ok ()) := by decide
  have ha11 : (checkScopeNamingPatterns minimalDocNoSharedSchemas) (minimalRunState 12 [missingSchemaIssue "ErrorInfo", missingSchemaIssue "XCorrelator"]) = ((minimalRunState 13 [missingSchemaIssue "ErrorInfo", missingSchemaIssue "XCorrelator"]), .ok ()) := by decide
  have ha12 : (checkFilenameConsistency "example.yaml" minimalDocNoSharedSchemas) (minimalRunState 13 [missingSchemaIssue "ErrorInfo", missingSchemaIssue "XCorrelator"]) = ((minimalRunState 14 [missingSchemaIssue "ErrorInfo", missingSchemaIssue "XCorrelator"]), .ok ()) := by decide
  have ha13 : (checkMandatoryErrorResponses minimalDocNoSharedSchemas) (minimalRunState 14 [missingSchemaIssue "ErrorInfo", missingSchemaIssue "XCorrelator"]) = ((minimalRunState 15 [missingSchemaIssue "ErrorInfo", missingSchemaIssue "XCorrelator"]), .ok ()) := by decide
  have ha14 : (checkServerUrlFormat minimalDocNoSharedSchemas) (minimalRunState 15 [missingSchemaIssue "ErrorInfo", missingSchemaIssue "XCorrelator"]) = ((minimalRunState 16 [missingSchemaIssue "ErrorInfo", missingSchemaIssue "XCorrelator"]), .ok ()) := by decide
  have ha15 : (checkCommonalitiesSchemaCompliance minimalDocNoSharedSchemas) (minimalRunState 16 [missingSchemaIssue "ErrorInfo", missingSchemaIssue "XCorrelator"]) = ((minimalRunState 17 [missingSchemaIssue "ErrorInfo", missingSchemaIssue "XCorrelator"]), .ok ()) := by decide
  have ha16 : (checkEventSubscriptionCompliance minimalDocNoSharedSchemas) (minimalRunState 17 [missingSchemaIssue "ErrorInfo", missingSchemaIssue "XCorrelator"]) = ((minimalRunState 18 [missingSchemaIssue "ErrorInfo", missingSchemaIssue "XCorrelator"]), .ok ()) := by decide
  have ha17 : typeSpecificChecks minimalDocNoSharedSchemas (minimalRunState 18 [missingSchemaIssue "ErrorInfo", missingSchemaIssue "XCorrelator"]) = ((minimalRunState 18 [missingSchemaIssue "ErrorInfo", missingSchemaIssue "XCorrelator"]), .ok ()) := by decide
  have ha18 : setManualChecks (minimalRunState 18 [missingSchemaIssue "ErrorInfo", missingSchemaIssue "XCorrelator"]) = (({ minimalRunState 18 [missingSchemaIssue "ErrorInfo", missingSchemaIssue "XCorrelator"] with manual := getManualChecksForType APIType.REGULAR } : VState), .ok ()) := by decide
  have hrun : batteryBody rcCtx "example.yaml" minimalDocNoSharedSchemas (initialVState rcCtx "example.yaml") =
      (({ minimalRunState 18 [missingSchemaIssue "ErrorInfo", missingSchemaIssue "XCorrelator"] with manual := getManualChecksForType APIType.REGULAR } : VState), .ok ()) := by
    rw [batteryBody, batteryChecks]
    exact (runSeqStep ha1) |>.trans (runSeqStep ha2) |>.trans (runSeqStep ha3) |>.trans (runSeqStep ha4) |>.trans (runSeqStep ha5) |>.trans (runSeqStep ha6) |>.trans (runSeqStep ha7) |>.trans (runSeqStep ha8) |>.trans (runSeqStep ha9) |>.trans (runSeqStep ha10) |>.trans (runSeqStep ha11) |>.trans (runSeqStep ha12) |>.trans (runSeqStep ha13) |>.trans (runSeqStep ha14) |>.trans (runSeqStep ha15) |>.trans (runSeqStep ha16) |>.trans (runSeqStep ha17) |>.trans (runSeqStep ha18) |>.trans (runSeqNil _)
  have hfile : validateApiFile rcCtx "example.yaml" minimalDocNoSharedSchemas = ({ minimalRunState 18 [missingSchemaIssue "ErrorInfo", missingSchemaIssue "XCorrelator"] with manual := getManualChecksForType APIType.REGULAR } : VState) := by
    rw [validateApiFile, pyTryOk hrun]
  exact hfile

set_option maxHeartbeats 2000000 in
theorem c8BaselineRun :
    validateApiFile rcCtx "example.yaml" (minimalDocWith minimalSchemas) =
      { minimalRunState 18 [] with manual := getManualChecksForType APIType.REGULAR } := by
  have hb1 : (batterySetup rcCtx "example.yaml" (minimalDocWith minimalSchemas)) (initialVState rcCtx "example.yaml") = ((minimalRunState 2 []), .ok ()) := by decide
  have hb2 : (checkVersionMismatch rcCtx (minimalDocWith minimalSchemas)) (minimalRunState 2 []) = ((minimalRunState 2 []), .ok ()) := by decide
  have hb3 : (validateInfoObject rcCtx (minimalDocWith minimalSchemas)) (minimalRunState 2 []) = ((minimalRunState 5 []), .ok ()) := by decide
  have hb4 : (validateExternalDocs (minimalDocWith minimalSchemas)) (minimalRunState 5 []) = ((minimalRunState 6 []), .ok ()) := by decide
  have hb5 : (validateServers (minimalDocWith minimalSchemas)) (minimalRunState 6 []) = ((minimalRunState 7 []), .ok ()) := by decide
  have hb6 : (validatePaths (minimalDocWith minimalSchemas)) (minimalRunState 7 []) = ((minimalRunState 8 []), .ok ()) := by decide
  have hb7 : (validateComponents (minimalDocWith minimalSchemas)) (minimalRunState 8 []) = ((minimalRunState 9 []), .ok ()) := by decide
  have hb8 : (validateSecuritySchemes (minimalDocWith minimalSchemas)) (minimalRunState 9 []) = ((minimalRunState 10 []), .ok ()) := by decide
  have hb9 : (checkWorkInProgressVersion rcCtx (minimalDocWith minimalSchemas)) (minimalRunState 10 []) = ((minimalRunState 11 []), .ok ()) := by decide
  have hb10 : (checkUpdatedGeneric401 (minimalDocWith minimalSchemas)) (minimalRunState 11 []) = ((minimalRunState 12 []), .ok ()) := by decide
  have hb11 : (checkScopeNamingPatterns (minimalDocWith minimalSchemas)) (minimalRunState 12 []) = ((minimalRunState 13 []), .ok ()) := by decide
  have hb12 : (checkFilenameConsistency "example.yaml" (minimalDocWith minimalSchemas)) (minimalRunState 13 []) = ((minimalRunState 14 []), .ok ()) := by decide
  have hb13 : (checkMandatoryErrorResponses (minimalDocWith minimalSchemas)) (minimalRunState 14 []) = ((minimalRunState 15 []), .ok ()) := by decide
  have hb14 : (checkServerUrlFormat (minimalDocWith minimalSchemas)) (minimalRunState 15 []) = ((minimalRunState 16 []), .ok ()) := by decide
  have hb15 : (checkCommonalitiesSchemaCompliance (minimalDocWith minimalSchemas)) (minimalRunState 16 []) = ((minimalRunState 17 []), .ok ()) := by decide
  have hb16 : (checkEventSubscriptionCompliance (minimalDocWith minimalSchemas)) (minimalRunState 17 []) = ((minimalRunState 18 []), .ok ()) := by decide
  have hb17 : typeSpecificChecks (minimalDocWith minimalSchemas) (minimalRunState 18 []) = ((minimalRunState 18 []), .ok ()) := by decide
  have hb18 : setManualChecks (minimalRunState 18 []) = (({ minimalRunState 18 [] with manual := getManualChecksForType APIType.REGULAR } : VState), .ok ()) := by decide
  have hrun : batteryBody rcCtx "example.yaml" (minimalDocWith minimalSchemas) (initialVState rcCtx "example.yaml") =
      (({ minimalRunState 18 [] with manual := getManualChecksForType APIType.REGULAR } : VState), .ok ()) := by
    rw [batteryBody, batteryChecks]
    exact (runSeqStep hb1) |>.trans (runSeqStep hb2) |>.trans (runSeqStep hb3) |>.trans (runSeqStep hb4) |>.trans (runSeqStep hb5) |>.trans (runSeqStep hb6) |>.trans (runSeqStep hb7) |>.trans (runSeqStep hb8) |>.trans (runSeqStep hb9) |>.trans (runSeqStep hb10) |>.trans (runSeqStep hb11) |>.trans (runSeqStep hb12) |>.trans (runSeqStep hb13) |>.trans (runSeqStep hb14) |>.trans (runSeqStep hb15) |>.trans (runSeqStep hb16) |>.trans (runSeqStep hb17) |>.trans (runSeqStep hb18) |>.trans (runSeqNil _)
  have hfile : validateApiFile rcCtx "example.yaml" (minimalDocWith minimalSchemas) = ({ minimalRunState 18 [] with manual := getManualChecksForType APIType.REGULAR } : VState) := by
    rw [validateApiFile, pyTryOk hrun]
  exact hfile

/-- C8: on a minimally compliant document whose `components.schemas` lacks
both mandatory shared schemas, the validation pass yields exactly two
Critical Issues, one naming each missing schema (`ErrorInfo` and
`XCorrelator`); the same document with both schemas present yields no Issues
at all, so the two Criticals are exactly the missing-schema findings. -/
theorem c8_missing_shared_schemas_yield_two_criticals :
    (validateApiFile rcCtx "example.yaml" minimalDocNoSharedSchemas).issues.filter
        (fun i => i.severity == Severity.CRITICAL) =
      [missingSchemaIssue "ErrorInfo", missingSchemaIssue "XCorrelator"] ∧
    (validateApiFile rcCtx "example.yaml" (minimalDocWith minimalSchemas)).issues = [] := by
  rw [c8NoSchemasRun, c8BaselineRun]
  constructor <;> decide

/-- C1: the lifecycle-stage check evaluated at the failing input.  A document
with `info.version = "wip"` and a `vwip` server URL reviewed with
`review_type = "wip"` still receives one Critical Server URL Issue from
`_check_work_in_progress_version` (its unconditional trailing block), where
the claim expects zero lifecycle Issues; the same document reviewed as
`release-candidate` receives the expected Critical Issue for the version and
Critical Issues for the server URL. -/
theorem c1_wip_lifecycle_check_at_failing_input :
    (checkWorkInProgressVersion wipCtx wipMarkedDoc initState).1.issues =
      [{ severity := .CRITICAL, category := "Server URL",
         description := "Work-in-progress server URL (`vwip`) cannot be used in release",
         location := "servers[0].url",
         fixSuggestion := "Update to production server URL" }] ∧
    ((checkWorkInProgressVersion rcCtx wipMarkedDoc initState).1.issues.map
        (fun i => (i.severity, i.category))) =
      [(Severity.CRITICAL, "Version"), (Severity.CRITICAL, "Server URL"),
       (Severity.CRITICAL, "Server URL")] := by
  constructor <;> decide

/-- C2: reference resolution does not terminate on a cyclic chain.  On the
self-referential error response of `cyclicRefSpec`, `_validate_error_response`
re-resolves the same `$ref` forever: for every recursion budget the check
ends in `RecursionError` (never the Critical cannot-resolve Issue the claim
describes), from any starting state. -/
theorem c2_cyclic_reference_recursion_never_terminates :
    ∀ (fuel : Nat) (s : VState),
      validateErrorResponse cyclicRefSpec "400" "GET /errors" fuel cyclicRefResponse s =
        (s, .error .recursionError) := by
  intro fuel
  induction fuel with
  | zero => intro s; rfl
  | succ n ih => intro s; exact ih s

/-- C5, counterexample: the classifier is not total over arbitrary parsed
trees — on a document whose `paths` value is a sequence, `_detect_api_type`
raises `AttributeError` (`paths.keys()` on a list) instead of returning an
`APIType`. -/
theorem c5_counterexample_paths_list_raises :
    detectApiType (.obj [("paths", .arr [.str "/a"])]) =
      .error (.attrError "list" "keys") := by decide

theorem exBindOk {e a b : Type} {x : Except e a} {v : a} {f : a → Except e b}
    (h : x = .ok v) : (x >>= f) = f v := by
  rw [h]; rfl

theorem scanResponsesOk {vals : List Yaml} (h : vals.all responseShapeOK = true) :
    ∃ b, scanResponses vals = .ok b := by
  induction vals with
  | nil => exact ⟨false, rfl⟩
  | cons r rest ih =>
    simp only [List.all_cons, Bool.and_eq_true] at h
    obtain ⟨hr, hrest⟩ := h
    match r, hr with
    | .obj res, hr =>
      have hc : ((Yaml.lookupKey res "content").getD (.obj [])).isObj = true := hr
      obtain ⟨ces, hces⟩ : ∃ ces, (Yaml.lookupKey res "content").getD (.obj []) = .obj ces := by
        cases hh : (Yaml.lookupKey res "content").getD (.obj []) <;>
          simp_all [Yaml.isObj]
      obtain ⟨b, hb⟩ := ih hrest
      refine ⟨if scanMedia ces then true else b, ?_⟩
      simp only [scanResponses, Yaml.isObj, if_true]
      rw [show (Yaml.pyGetD (.obj res) "content" (.obj [])) = .ok (.obj ces) by
        simp [Yaml.pyGetD, hces]]
      simp only [exBindOk rfl]
      rw [show (Yaml.pyItems (.obj ces)) = .ok ces from rfl]
      simp only [exBindOk rfl]
      by_cases hm : scanMedia ces = true
      · simp only [hm, if_true]; rfl
      · simp only [hm, if_false, Bool.false_eq_true]; exact hb
    | .null, hr => simpa [scanResponses, Yaml.isObj] using ih hrest
    | .bool x, hr => simpa [scanResponses, Yaml.isObj] using ih hrest
    | .num x, hr => simpa [scanResponses, Yaml.isObj] using ih hrest
    | .str x, hr => simpa [scanResponses, Yaml.isObj] using ih hrest
    | .arr x, hr => simpa [scanResponses, Yaml.isObj] using ih hrest

theorem allMapSnd {p : Yaml → Bool} :
    ∀ (res : List (String × Yaml)), (res.map Prod.snd).all p = res.all (fun kv => p kv.2)
  | [] => rfl
  | _ :: rest => by simp only [List.map_cons, List.all_cons, allMapSnd rest]

theorem scanOpsOk {entries : List (String × Yaml)}
    (h : entries.all (fun mo => !httpMethods5.contains mo.1 || operationShapeOK mo.2) = true) :
    ∃ b, scanOps entries = .ok b := by
  induction entries with
  | nil => exact ⟨false, rfl⟩
  | cons mo rest ih =>
    obtain ⟨m, op⟩ := mo
    simp only [List.all_cons, Bool.and_eq_true, Bool.or_eq_true, Bool.not_eq_true'] at h
    obtain ⟨hop, hrest⟩ := h
    have ihr := ih (by simpa using hrest)
    by_cases hm : httpMethods5.contains m = true
    · have hshape : operationShapeOK op = true := by
        rcases hop with hfalse | htrue
        · rw [hfalse] at hm; exact absurd hm (by simp)
        · exact htrue
      match op, hshape with
      | .obj oes, hshape =>
        have hcond : (httpMethods5.contains m && Yaml.isObj (.obj oes)) = true := by
          rw [hm]; rfl
        by_cases hcb : (Yaml.lookupKey oes "callbacks").isSome = true
        · have hcontains : Yaml.pyContains (.obj oes) "callbacks" = true := hcb
          refine ⟨true, ?_⟩
          simp only [scanOps, hcond, if_true, hcontains]
        · have hcb2 : (Yaml.lookupKey oes "callbacks").isSome = false := by
            simpa using hcb
          have hcontains : Yaml.pyContains (.obj oes) "callbacks" = false := hcb2
          simp only [operationShapeOK, hcb2, Bool.false_eq_true, if_false] at hshape
          obtain ⟨res, hres⟩ :
              ∃ res, (Yaml.lookupKey oes "responses").getD (.obj []) = .obj res := by
            cases hh : (Yaml.lookupKey oes "responses").getD (.obj []) <;>
              simp_all
          rw [hres] at hshape
          have hshape2 : (res.map Prod.snd).all responseShapeOK = true := by
            rw [allMapSnd]; exact hshape
          obtain ⟨b1, hb1⟩ := scanResponsesOk hshape2
          obtain ⟨b2, hb2⟩ := ihr
          refine ⟨if b1 then true else b2, ?_⟩
          simp only [scanOps, hcond, if_true, hcontains, Bool.false_eq_true, if_false]
          rw [show (Yaml.pyGetD (.obj oes) "responses" (.obj [])) = .ok (.obj res) by
            simp [Yaml.pyGetD, hres]]
          simp only [exBindOk rfl]
          rw [show (Yaml.pyValues (.obj res)) = .ok (res.map Prod.snd) from rfl]
          simp only [exBindOk rfl]
          rw [hb1]
          simp only [exBindOk rfl]
          by_cases hb : b1 = true
          · simp only [hb, if_true]; rfl
          · simp only [Bool.not_eq_true] at hb
            simp only [hb, Bool.false_eq_true, if_false]
            exact hb2
      | .null, hshape =>
        obtain ⟨b2, hb2⟩ := ihr
        exact ⟨b2, by simpa only [scanOps, hm, Bool.true_and, Yaml.isObj,
          Bool.false_eq_true, if_false] using hb2⟩
      | .bool x, hshape =>
        obtain ⟨b2, hb2⟩ := ihr
        exact ⟨b2, by simpa only [scanOps, hm, Bool.true_and, Yaml.isObj,
          Bool.false_eq_true, if_false] using hb2⟩
      | .num x, hshape =>
        obtain ⟨b2, hb2⟩ := ihr
        exact ⟨b2, by simpa only [scanOps, hm, Bool.true_and, Yaml.isObj,
          Bool.false_eq_true, if_false] using hb2⟩
      | .str x, hshape =>
        obtain ⟨b2, hb2⟩ := ihr
        exact ⟨b2, by simpa only [scanOps, hm, Bool.true_and, Yaml.isObj,
          Bool.false_eq_true, if_false] using hb2⟩
      | .arr x, hshape =>
        obtain ⟨b2, hb2⟩ := ihr
        exact ⟨b2, by simpa only [scanOps, hm, Bool.true_and, Yaml.isObj,
          Bool.false_eq_true, if_false] using hb2⟩
    · have hm2 : httpMethods5.contains m = false := by simpa using hm
      obtain ⟨b2, hb2⟩ := ihr
      exact ⟨b2, by simpa only [scanOps, hm2, Bool.false_and,
        Bool.false_eq_true, if_false] using hb2⟩

theorem scanPathItemsOk {pitems : List (String × Yaml)}
    (h : pitems.all (fun kv => pathItemShapeOK kv.2) = true) :
    ∃ b, scanPathItems pitems = .ok b := by
  induction pitems with
  | nil => exact ⟨false, rfl⟩
  | cons kv rest ih =>
    obtain ⟨k, v⟩ := kv
    simp only [List.all_cons, Bool.and_eq_true] at h
    obtain ⟨hkv, hrest⟩ := h
    obtain ⟨b2, hb2⟩ := ih hrest
    match v, hkv with
    | .obj pes, hkv =>
      have hshape : pes.all
          (fun mo => !httpMethods5.contains mo.1 || operationShapeOK mo.2) = true := hkv
      obtain ⟨b1, hb1⟩ := scanOpsOk hshape
      refine ⟨if b1 then true else b2, ?_⟩
      simp only [scanPathItems]
      rw [hb1]
      simp only [exBindOk rfl]
      by_cases hb : b1 = true
      · simp only [hb, if_true]; rfl
      · simp only [Bool.not_eq_true] at hb
        simp only [hb, Bool.false_eq_true, if_false]
        exact hb2
    | .null, hkv => exact ⟨b2, hb2⟩
    | .bool x, hkv => exact ⟨b2, hb2⟩
    | .num x, hkv => exact ⟨b2, hb2⟩
    | .str x, hkv => exact ⟨b2, hb2⟩
    | .arr x, hkv => exact ⟨b2, hb2⟩

/-- C5 (amended): the classifier is deterministic and total on well-shaped
documents — wherever `_detect_api_type` expects a mapping (the document,
`paths`, path items' operations' `responses` and their `content`,
`components`, `components.schemas`) the document provides one — and there it
returns exactly one of the three `APIType` values; determinism is inherent,
the classifier being a pure function of the parsed document. -/
theorem c5_classifier_total_on_wellshaped (doc : Yaml)
    (h : detectShapeOK doc = true) :
    ∃ t, detectApiType doc = .ok t ∧
      (t = APIType.REGULAR ∨ t = APIType.IMPLICIT_SUBSCRIPTION ∨
        t = APIType.EXPLICIT_SUBSCRIPTION) := by
  suffices hs : ∃ t, detectApiType doc = .ok t by
    obtain ⟨t, ht⟩ := hs
    exact ⟨t, ht, by cases t <;> simp⟩
  match doc, h with
  | .obj es, h =>
    simp only [detectShapeOK, Bool.and_eq_true] at h
    obtain ⟨hpaths, hcomp⟩ := h
    obtain ⟨pitems, hpit⟩ :
        ∃ pitems, (Yaml.lookupKey es "paths").getD (.obj []) = .obj pitems := by
      cases hh : (Yaml.lookupKey es "paths").getD (.obj []) <;> simp_all
    rw [hpit] at hpaths
    obtain ⟨ces, hces⟩ :
        ∃ ces, (Yaml.lookupKey es "components").getD (.obj []) = .obj ces := by
      cases hh : (Yaml.lookupKey es "components").getD (.obj []) <;> simp_all
    rw [hces] at hcomp
    obtain ⟨ses, hses⟩ :
        ∃ ses, (Yaml.lookupKey ces "schemas").getD (.obj []) = .obj ses := by
      cases hh : (Yaml.lookupKey ces "schemas").getD (.obj []) <;> simp_all
    simp only [detectApiType]
    rw [show (Yaml.pyGetD (.obj es) "paths" (.obj [])) = .ok (.obj pitems) by
      simp [Yaml.pyGetD, hpit]]
    simp only [exBindOk rfl]
    rw [show (Yaml.pyKeys (.obj pitems)) = .ok (pitems.map Prod.fst) from rfl]
    simp only [exBindOk rfl]
    by_cases hkey : (pitems.map Prod.fst).any (fun path =>
        subscriptionPatterns.any (fun pat => pySubstr pat (pyLower path))) = true
    · exact ⟨.EXPLICIT_SUBSCRIPTION, by simp only [hkey, if_true]; rfl⟩
    · simp only [Bool.not_eq_true] at hkey
      simp only [hkey, Bool.false_eq_true, if_false]
      rw [show (Yaml.pyItems (.obj pitems)) = .ok pitems from rfl]
      simp only [exBindOk rfl]
      obtain ⟨b1, hb1⟩ := scanPathItemsOk hpaths
      rw [hb1]
      simp only [exBindOk rfl]
      by_cases hb : b1 = true
      · exact ⟨.IMPLICIT_SUBSCRIPTION, by simp only [hb, if_true]; rfl⟩
      · simp only [Bool.not_eq_true] at hb
        simp only [hb, Bool.false_eq_true, if_false]
        rw [show (Yaml.pyGetD (.obj es) "components" (.obj [])) = .ok (.obj ces) by
          simp [Yaml.pyGetD, hces]]
        simp only [exBindOk rfl]
        rw [show (Yaml.pyGetD (.obj ces) "schemas" (.obj [])) = .ok (.obj ses) by
          simp [Yaml.pyGetD, hses]]
        simp only [exBindOk rfl]
        rw [show (Yaml.pyItems (.obj ses)) = .ok ses from rfl]
        simp only [exBindOk rfl]
        cases hscan : scanSchemaNames ses with
        | some t => exact ⟨t, by simp only [hscan]; rfl⟩
        | none => exact ⟨.REGULAR, by simp only [hscan]; rfl⟩

/-- Witness for C5: the minimal compliant document is well-shaped, and the
classifier returns a value on it. -/
theorem c5_classifier_total_witness :
    detectShapeOK (minimalDocWith minimalSchemas) = true ∧
      ∃ t, detectApiType (minimalDocWith minimalSchemas) = .ok t ∧
        (t = APIType.REGULAR ∨ t = APIType.IMPLICIT_SUBSCRIPTION ∨
          t = APIType.EXPLICIT_SUBSCRIPTION) :=
  ⟨by decide, c5_classifier_total_on_wellshaped (minimalDocWith minimalSchemas) (by decide)⟩

theorem anyMapFst {p : String → Bool} :
    ∀ (l : List (String × Yaml)), (l.map Prod.fst).any p = l.any (fun kv => p kv.1)
  | [] => rfl
  | _ :: rest => by simp only [List.map_cons, List.any_cons, anyMapFst rest]

/-- C4: classification priority — on a document having at least one path key
with a subscription-path substring (case-insensitively) and at least one
operation declaring a callback block, the classifier returns
`ExplicitSubscription`: the tier-1 path-shape signal wins over the tier-2
callback signal, by the first-match-wins tier order. -/
theorem c4_path_signal_beats_callback_signal
    (es : List (String × Yaml)) (pitems : List (String × Yaml))
    (hp : Yaml.lookupKey es "paths" = some (.obj pitems))
    (hsub : anySubscriptionPathKey pitems = true)
    (hcb : anyCallbackOp pitems = true) :
    detectApiType (.obj es) = .ok APIType.EXPLICIT_SUBSCRIPTION := by
  clear hcb
  simp only [detectApiType]
  rw [show (Yaml.pyGetD (.obj es) "paths" (.obj [])) = .ok (.obj pitems) by
    simp [Yaml.pyGetD, hp]]
  simp only [exBindOk rfl]
  rw [show (Yaml.pyKeys (.obj pitems)) = .ok (pitems.map Prod.fst) from rfl]
  simp only [exBindOk rfl]
  have hkey : (pitems.map Prod.fst).any (fun path =>
      subscriptionPatterns.any (fun pat => pySubstr pat (pyLower path))) = true := by
    rw [anyMapFst]; exact hsub
  simp only [hkey, if_true]
  rfl

/-- Witness for C4: a document with a `/subscriptions` path and a
callback-bearing operation classifies as `ExplicitSubscription`. -/
theorem c4_path_signal_witness :
    Yaml.lookupKey [("paths", Yaml.obj c4WitnessPathItems)] "paths" =
        some (.obj c4WitnessPathItems) ∧
      anySubscriptionPathKey c4WitnessPathItems = true ∧
      anyCallbackOp c4WitnessPathItems = true ∧
      detectApiType (.obj [("paths", .obj c4WitnessPathItems)]) =
        .ok APIType.EXPLICIT_SUBSCRIPTION :=
  ⟨by decide, by decide, by decide,
   c4_path_signal_beats_callback_signal _ c4WitnessPathItems (by decide)
     (by decide) (by decide)⟩

mutual

theorem normalizeIdem : ∀ (y : Yaml),
    normalizeSchemaForComparison (normalizeSchemaForComparison y) =
      normalizeSchemaForComparison y
  | .null => rfl
  | .bool _ => rfl
  | .num _ => rfl
  | .str _ => rfl
  | .arr xs => by
    simp only [normalizeSchemaForComparison]
    rw [normalizeItemsIdem xs]
  | .obj es => by
    simp only [normalizeSchemaForComparison]
    rw [normalizeEntriesIdem es]

theorem normalizeItemsIdem : ∀ (xs : List Yaml),
    normalizeItems (normalizeItems xs) = normalizeItems xs
  | [] => rfl
  | x :: rest => by
    simp only [normalizeItems]
    rw [normalizeIdem x, normalizeItemsIdem rest]

theorem normalizeEntriesIdem : ∀ (es : List (String × Yaml)),
    normalizeEntries (normalizeEntries es) = normalizeEntries es
  | [] => rfl
  | (k, v) :: rest => by
    by_cases hk : docOnlyKeys.contains k = true
    · simp only [normalizeEntries, hk, if_true]
      exact normalizeEntriesIdem rest
    · simp only [Bool.not_eq_true] at hk
      simp only [normalizeEntries, hk, Bool.false_eq_true, if_false]
      rw [normalizeIdem v, normalizeEntriesIdem rest]

end

mutual

theorem diffOnlyDocNormalizeEq : ∀ {s t : Yaml}, DiffOnlyDoc s t →
    normalizeSchemaForComparison s = normalizeSchemaForComparison t
  | _, _, .refl _ => rfl
  | _, _, .arr h => by
    simp only [normalizeSchemaForComparison]
    rw [diffOnlyDocListNormalizeEq h]
  | _, _, .obj h => by
    simp only [normalizeSchemaForComparison]
    rw [diffOnlyDocEntriesNormalizeEq h]

theorem diffOnlyDocListNormalizeEq : ∀ {xs ys : List Yaml},
    DiffOnlyDocList xs ys → normalizeItems xs = normalizeItems ys
  | _, _, .nil => rfl
  | _, _, .cons h hs => by
    simp only [normalizeItems]
    rw [diffOnlyDocNormalizeEq h, diffOnlyDocListNormalizeEq hs]

theorem diffOnlyDocEntriesNormalizeEq : ∀ {es fs : List (String × Yaml)},
    DiffOnlyDocEntries es fs → normalizeEntries es = normalizeEntries fs
  | _, _, .nil => rfl
  | _, _, .cons (k := k) h hs => by
    by_cases hk : docOnlyKeys.contains k = true
    · simp only [normalizeEntries, hk, if_true]
      exact diffOnlyDocEntriesNormalizeEq hs
    · simp only [Bool.not_eq_true] at hk
      simp only [normalizeEntries, hk, Bool.false_eq_true, if_false]
      rw [diffOnlyDocNormalizeEq h, diffOnlyDocEntriesNormalizeEq hs]
  | _, _, .skipLeft hk hs => by
    simp only [normalizeEntries, hk, if_true]
    exact diffOnlyDocEntriesNormalizeEq hs
  | _, _, .skipRight hk hs => by
    simp only [normalizeEntries, hk, if_true]
    exact diffOnlyDocEntriesNormalizeEq hs

end

/-- C9: schema normalization is idempotent, and it quotients out exactly the
documentation-only fields — any two schema trees that differ only in
`example`/`examples`/`description` entries (at any depth) have equal
normalized forms, all other structure preserved. -/
theorem c9_normalization_idempotent_and_doc_insensitive :
    (∀ y : Yaml, normalizeSchemaForComparison (normalizeSchemaForComparison y) =
        normalizeSchemaForComparison y) ∧
    (∀ s t : Yaml, DiffOnlyDoc s t →
        normalizeSchemaForComparison s = normalizeSchemaForComparison t) :=
  ⟨normalizeIdem, fun _ _ h => diffOnlyDocNormalizeEq h⟩

/-- Witness for C9: the theorem applied to a concrete schema pair differing
only in documentation fields at two depths. -/
theorem c9_normalization_witness :
    normalizeSchemaForComparison (normalizeSchemaForComparison c9SchemaOld) =
        normalizeSchemaForComparison c9SchemaOld ∧
      normalizeSchemaForComparison c9SchemaOld =
        normalizeSchemaForComparison c9SchemaNew :=
  ⟨c9_normalization_idempotent_and_doc_insensitive.1 c9SchemaOld,
   c9_normalization_idempotent_and_doc_insensitive.2 c9SchemaOld c9SchemaNew
     (.obj (.cons (.refl _)
       (.skipLeft (by decide)
         (.cons
           (.obj (.cons
             (.obj (.cons (.refl _)
               (.skipLeft (by decide) (.skipRight (by decide) .nil))))
             .nil))
           (.skipRight (by decide) .nil)))))⟩

theorem charsPrefixIff : ∀ (p s : List Char), charsPrefix p s = true ↔ p <+: s
  | [], s => by simp [charsPrefix]
  | c :: p, [] => by simp [charsPrefix]
  | c :: p, d :: s => by
    simp [charsPrefix, List.cons_prefix_cons, charsPrefixIff p s]

theorem stringDataAppendDash (a : String) :
    (a ++ "-").toList = a.toList ++ ['-'] := by
  show (a ++ "-").data = a.data ++ ['-']
  rw [String.data_append]

theorem matchesTestOfLengthEq {a b t : String}
    (ha : matchesTest a t = true) (hb : matchesTest b t = true)
    (hl : a.length = b.length) : a = b := by
  have hlen : ∀ (x : String), x.length = x.toList.length := fun _ => rfl
  simp only [matchesTest, Bool.or_eq_true, beq_iff_eq, pyStartsWith] at ha hb
  rcases ha with ha | ha <;> rcases hb with hb | hb
  · rw [← ha, ← hb]
  · exfalso
    rw [charsPrefixIff] at hb
    have h1 := hb.length_le
    simp only [stringDataAppendDash, List.length_append, List.length_cons,
      List.length_nil, ← hlen] at h1
    rw [ha] at h1
    omega
  · exfalso
    rw [charsPrefixIff] at ha
    have h1 := ha.length_le
    simp only [stringDataAppendDash, List.length_append, List.length_cons,
      List.length_nil, ← hlen] at h1
    rw [hb] at h1
    omega
  · rw [charsPrefixIff] at ha hb
    have hlab : (a ++ "-").toList.length = (b ++ "-").toList.length := by
      simp only [stringDataAppendDash, List.length_append, List.length_cons,
        List.length_nil, ← hlen]
      omega
    have hpre : (a ++ "-").toList <+: (b ++ "-").toList :=
      List.prefix_of_prefix_length_le ha hb (le_of_eq hlab)
    have heq : (a ++ "-").toList = (b ++ "-").toList :=
      List.IsPrefix.eq_of_length hpre hlab
    rw [stringDataAppendDash a, stringDataAppendDash b] at heq
    have hd := List.append_inj_left heq (by rw [← hlen a, ← hlen b, hl])
    exact String.ext hd

theorem assignForAux (t : String) :
    ∀ (names : List String) (cur : Option String) (a : String),
      matchesTest a t = true →
      (∀ b ∈ names, matchesTest b t = true → b.length ≤ a.length) →
      (∀ c, cur = some c → matchesTest c t = true ∧ c.length ≤ a.length) →
      (a ∈ names ∨ cur = some a) →
      names.foldl (assignStep t) cur = some a
  | [], cur, a, _, _, _, hin => by
    rcases hin with hin | hin
    · exact absurd hin (List.not_mem_nil a)
    · simpa using hin
  | n :: rest, cur, a, hmatch, hmax, hcur, hin => by
    rw [List.foldl_cons]
    have hmaxrest : ∀ b ∈ rest, matchesTest b t = true → b.length ≤ a.length :=
      fun b hb => hmax b (List.mem_cons_of_mem n hb)
    have hstep : ∀ c, assignStep t cur n = some c →
        matchesTest c t = true ∧ c.length ≤ a.length := by
      intro c hc
      by_cases hn : matchesTest n t = true
      · simp only [assignStep, hn, if_true] at hc
        match cur, hc with
        | none, hc =>
          cases hc
          exact ⟨hn, hmax n (List.mem_cons_self n rest) hn⟩
        | some c0, hc =>
          have hc0 := hcur c0 rfl
          by_cases hlt : n.length > c0.length
          · simp only [hlt, if_true] at hc
            cases hc
            exact ⟨hn, hmax n (List.mem_cons_self n rest) hn⟩
          · simp only [hlt, if_false] at hc
            cases hc
            exact hc0
      · simp only [Bool.not_eq_true] at hn
        simp only [assignStep, hn, Bool.false_eq_true, if_false] at hc
        exact hcur c hc
    have hinrest : a ∈ rest ∨ assignStep t cur n = some a := by
      rcases hin with hin | hin
      · rcases List.mem_cons.1 hin with rfl | hma
        · by_cases hrest : a ∈ rest
          · exact Or.inl hrest
          · refine Or.inr ?_
            simp only [assignStep, hmatch, if_true]
            match cur, hcur with
            | none, _ => rfl
            | some c0, hcur =>
              obtain ⟨hc0m, hc0l⟩ := hcur c0 rfl
              by_cases hlt : a.length > c0.length
              · simp only [hlt, if_true]
              · simp only [hlt, if_false]
                have : c0.length = a.length := le_antisymm hc0l (by omega)
                rw [matchesTestOfLengthEq hc0m hmatch this]
        · exact Or.inl hma
      · refine Or.inr ?_
        subst hin
        by_cases hn : matchesTest n t = true
        · simp only [assignStep, hn, if_true]
          have hnl := hmax n (List.mem_cons_self n rest) hn
          obtain ⟨ham, hal⟩ := hcur a rfl
          by_cases hlt : n.length > a.length
          · omega
          · simp only [hlt, if_false]
        · simp only [Bool.not_eq_true] at hn
          simp only [assignStep, hn, Bool.false_eq_true, if_false]
    exact assignForAux t rest (assignStep t cur n) a hmatch hmaxrest hstep hinrest

/-- C6: longest-prefix test-to-API assignment — whenever a test base name
matches several api-names (exactly or as `name + "-"` prefix), the assignment
kept is the longest matching api-name, regardless of the order in which
api-names are considered (two distinct matching names cannot have equal
length, so the longest matcher is unique). -/
theorem c6_longest_prefix_assignment (names : List String) (t a : String)
    (hmem : a ∈ names) (hmatch : matchesTest a t = true)
    (hmax : ∀ b ∈ names, matchesTest b t = true → b.length ≤ a.length) :
    assignFor names t = some a :=
  assignForAux t names none a hmatch hmax (by intro c hc; cases hc) (Or.inl hmem)

/-- Witness for C6: with api-names `foo` and `foo-bar` in either order, test
base name `foo-bar-create` is assigned to `foo-bar`, never `foo`. -/
theorem c6_longest_prefix_witness :
    assignFor ["foo", "foo-bar"] "foo-bar-create" = some "foo-bar" ∧
      assignFor ["foo-bar", "foo"] "foo-bar-create" = some "foo-bar" :=
  ⟨c6_longest_prefix_assignment ["foo", "foo-bar"] "foo-bar-create" "foo-bar"
     (by decide) (by decide) (by decide),
   c6_longest_prefix_assignment ["foo-bar", "foo"] "foo-bar-create" "foo-bar"
     (by decide) (by decide) (by decide)⟩

theorem dedupFirstAuxMem :
    ∀ (l seen : List String) (x : String),
      x ∈ dedupFirstAux seen l ↔ (x ∈ l ∧ x ∉ seen)
  | [], seen, x => by simp [dedupFirstAux]
  | y :: rest, seen, x => by
    by_cases hy : seen.contains y = true
    · have hym : y ∈ seen := by simpa using hy
      simp only [dedupFirstAux, hy, if_true, dedupFirstAuxMem rest seen x,
        List.mem_cons]
      constructor
      · rintro ⟨hm, hn⟩; exact ⟨Or.inr hm, hn⟩
      · rintro ⟨hm | hm, hn⟩
        · exact absurd (hm ▸ hym) hn
        · exact ⟨hm, hn⟩
    · have hyn : y ∉ seen := by simpa using hy
      simp only [Bool.not_eq_true] at hy
      simp only [dedupFirstAux, hy, Bool.false_eq_true, if_false, List.mem_cons,
        dedupFirstAuxMem rest (y :: seen) x]
      constructor
      · rintro (rfl | ⟨hm, hn⟩)
        · exact ⟨Or.inl rfl, hyn⟩
        · exact ⟨Or.inr hm, fun hx => hn (Or.inr hx)⟩
      · rintro ⟨rfl | hm, hn⟩
        · exact Or.inl rfl
        · by_cases hxy : x = y
          · exact Or.inl hxy
          · refine Or.inr ⟨hm, fun hx => ?_⟩
            rcases hx with h | h
            · exact hxy h
            · exact hn h

theorem dedupFirstAuxNodup :
    ∀ (l seen : List String), (dedupFirstAux seen l).Nodup
  | [], _ => List.nodup_nil
  | y :: rest, seen => by
    by_cases hy : seen.contains y = true
    · simp only [dedupFirstAux, hy, if_true]
      exact dedupFirstAuxNodup rest seen
    · simp only [Bool.not_eq_true] at hy
      simp only [dedupFirstAux, hy, Bool.false_eq_true, if_false, List.nodup_cons]
      refine ⟨fun hmem => ?_, dedupFirstAuxNodup rest (y :: seen)⟩
      have := (dedupFirstAuxMem rest (y :: seen) y).1 hmem
      exact this.2 (List.mem_cons_self y seen)

theorem dedupFirstNodup (l : List String) : (dedupFirst l).Nodup :=
  dedupFirstAuxNodup l []

theorem dedupFirstMem (l : List String) (x : String) :
    x ∈ dedupFirst l ↔ x ∈ l := by
  simp [dedupFirst, dedupFirstAuxMem]

theorem exceptMapMStrOk (strs : List String) :
    exceptMapM (fun o => match o with
      | Yaml.str s => Except.ok s
      | other => Except.error (PyErr.typeError other.typeName)) (strs.map .str) =
      .ok strs := by
  induction strs with
  | nil => rfl
  | cons x rest ih =>
    simp only [List.map_cons, exceptMapM, ih]
    rfl

theorem pyJoinStrsOk (strs : List String) :
    pyJoinStrs (strs.map .str) = .ok (pyJoinComma strs) := by
  simp only [pyJoinStrs]
  rw [exBindOk (exceptMapMStrOk strs)]
  rfl

theorem unknownOpDescInj {op1 op2 : String}
    (h : unknownOpDescriptionFor op1 = unknownOpDescriptionFor op2) : op1 = op2 := by
  simp only [unknownOpDescriptionFor] at h
  have hd := congrArg String.data h
  simp only [String.data_append] at hd
  exact String.ext (List.append_cancel_left (List.append_cancel_right hd))

theorem countUnknownAppend (l1 l2 : List Issue) (op : String) :
    countUnknownOpIssuesFor (l1 ++ l2) op =
      countUnknownOpIssuesFor l1 op + countUnknownOpIssuesFor l2 op := by
  simp [countUnknownOpIssuesFor, List.filter_append]

theorem countUnknownCons (i : Issue) (l : List Issue) (op : String) :
    countUnknownOpIssuesFor (i :: l) op =
      (if (i.category == "Test Operation IDs" &&
            i.description == unknownOpDescriptionFor op) = true
       then 1 else 0) + countUnknownOpIssuesFor l op := by
  simp only [countUnknownOpIssuesFor, List.filter]
  by_cases h : (i.category == "Test Operation IDs" &&
      i.description == unknownOpDescriptionFor op) = true
  · simp [h, Nat.add_comm]
  · simp only [Bool.not_eq_true] at h
    simp [h]

theorem mapStrAnyBeq (o : String) :
    ∀ (strs : List String),
      ((strs.map Yaml.str).any (fun v => v == Yaml.str o)) = strs.contains o
  | [] => rfl
  | x :: rest => by
    simp only [List.map_cons, List.any_cons, List.contains_cons, mapStrAnyBeq o rest]
    have : (Yaml.str x == Yaml.str o) = (o == x) := by
      show Yaml.beq (.str x) (.str o) = (o == x)
      simp only [Yaml.beq]
      rw [Bool.eq_iff_iff]
      simp only [beq_iff_eq]
      exact ⟨fun h2 => h2.symm, fun h2 => h2.symm⟩
    rw [this]

theorem unknownOpsLoopOkCount (testFile : String) (strs : List String)
    (op : String) (hunknown : op ∉ strs) :
    ∀ ops : List String, ops.Nodup →
      ∃ issues, unknownOpsLoop testFile (strs.map .str) ops = .ok issues ∧
        countUnknownOpIssuesFor issues op = (if op ∈ ops then 1 else 0) := by
  intro ops
  induction ops with
  | nil =>
    intro _
    exact ⟨[], rfl, by simp [countUnknownOpIssuesFor]⟩
  | cons op2 rest ih =>
    intro hnd
    rw [List.nodup_cons] at hnd
    obtain ⟨hop2, hndrest⟩ := hnd
    obtain ⟨issues1, h1, hcount1⟩ := ih hndrest
    by_cases hknown : ((strs.map Yaml.str).any (fun v => v == Yaml.str op2)) = true
    · have hop2in : op2 ∈ strs := by
        rw [mapStrAnyBeq] at hknown
        simpa using hknown
      have hne : op ≠ op2 := fun he => hunknown (he ▸ hop2in)
      refine ⟨issues1, ?_, ?_⟩
      · simp only [unknownOpsLoop]
        rw [exBindOk h1]
        simp only [hknown, if_true]
        rfl
      · rw [hcount1]
        simp only [List.mem_cons]
        by_cases hmem : op ∈ rest <;> simp [hmem, hne]
    · simp only [Bool.not_eq_true] at hknown
      have hjoin := pyJoinStrsOk strs
      refine ⟨{ severity := .CRITICAL, category := "Test Operation IDs",
                description := "Test references unknown operation `" ++ op2 ++ "`",
                location := testFile,
                fixSuggestion := "Use valid operation ID from: `" ++
                  pyJoinComma strs ++ "`" } :: issues1, ?_, ?_⟩
      · simp only [unknownOpsLoop]
        rw [exBindOk h1]
        simp only [hknown, Bool.false_eq_true, if_false]
        rw [exBindOk hjoin]
        rfl
      · rw [countUnknownCons, hcount1]
        by_cases heq : op2 = op
        · subst heq
          have hpred : ((("Test Operation IDs" : String) == "Test Operation IDs") &&
              (("Test references unknown operation `" ++ op2 ++ "`" : String) ==
                unknownOpDescriptionFor op2)) = true := by
            simp [unknownOpDescriptionFor]
          simp only [Issue.category, Issue.description] at *
          rw [if_pos hpred]
          simp [hop2]
        · have hne2 : ((("Test Operation IDs" : String) == "Test Operation IDs") &&
              (("Test references unknown operation `" ++ op2 ++ "`" : String) ==
                unknownOpDescriptionFor op)) = false := by
            rw [Bool.and_eq_false_iff]
            right
            rw [beq_eq_false_iff_ne]
            intro hcontra
            exact heq (unknownOpDescInj hcontra)
          simp only [Issue.category, Issue.description] at *
          rw [if_neg (by rw [hne2]; exact Bool.false_ne_true)]
          simp only [List.mem_cons, zero_add]
          have hne3 : ¬op = op2 := fun h2 => heq h2.symm
          by_cases hmem : op ∈ rest <;> simp [hmem, hne3]

theorem wipIssuesCountZero (ctx : ReviewCtx) (testFile content op : String) :
    countUnknownOpIssuesFor (wipIssuesFor ctx testFile content) op = 0 := by
  simp only [wipIssuesFor]
  split <;> split <;> simp [countUnknownOpIssuesFor]

theorem featureIssuesCountZero (testFile : String) (apiVersion : Yaml)
    (content op : String) :
    countUnknownOpIssuesFor (featureIssuesFor testFile apiVersion content) op = 0 := by
  simp only [featureIssuesFor]
  split
  · split <;> simp [countUnknownOpIssuesFor]
  · simp [countUnknownOpIssuesFor]

theorem namingIssuesOkCountZero (testFile apiName : String) (strs : List String)
    (op : String) :
    ∃ n, namingIssuesFor testFile apiName (strs.map .str) = .ok n ∧
      countUnknownOpIssuesFor n op = 0 := by
  simp only [namingIssuesFor]
  by_cases hpre : pyStartsWith (pathStem testFile) (apiName ++ "-") = true
  · simp only [hpre, if_true]
    by_cases hany : ((strs.map Yaml.str).any (fun v => v == Yaml.str (String.mk
        (pyRemoveAll (apiName ++ "-") (pathStem testFile).toList.length
          (pathStem testFile).toList)))) = true
    · exact ⟨[], by rw [if_pos hany]; rfl, by simp [countUnknownOpIssuesFor]⟩
    · simp only [Bool.not_eq_true] at hany
      refine ⟨[{ severity := .LOW, category := "Test File Naming",
                 description := "Test file suggests operation `" ++ String.mk
                   (pyRemoveAll (apiName ++ "-") (pathStem testFile).toList.length
                     (pathStem testFile).toList) ++ "` but it doesn't exist in API",
                 location := testFile,
                 fixSuggestion := "Check if test file naming is as intended, consider to use valid operation from: `" ++
                   pyJoinComma strs ++ "`" }], ?_, ?_⟩
      · rw [if_neg (by rw [hany]; exact Bool.false_ne_true)]
        rw [exBindOk (pyJoinStrsOk strs)]
        rfl
      · simp [countUnknownOpIssuesFor]
  · simp only [Bool.not_eq_true] at hpre
    exact ⟨[], by rw [hpre]; rfl, by simp [countUnknownOpIssuesFor]⟩

/-- C10 (implicit): operation identifiers extracted from a test file are
de-duplicated before the unknown-operation check, so a test file referencing
the same unknown identifier any number of times receives exactly one Critical
unknown-operation Issue for it. -/
theorem c10_unknown_operation_reported_once (ctx : ReviewCtx)
    (contents : String → Except String String) (testFile apiName : String)
    (apiVersion : Yaml) (strs : List String) (content op : String)
    (hread : contents testFile = .ok content)
    (hmem : op ∈ extractTestOperations content)
    (hunknown : op ∉ strs) :
    ∃ issues,
      validateTestFile ctx contents testFile apiName apiVersion (strs.map .str) =
          .ok issues ∧
        countUnknownOpIssuesFor issues op = 1 := by
  obtain ⟨uIssues, hu, hcount⟩ :=
    unknownOpsLoopOkCount testFile strs op hunknown (extractTestOperations content)
      (dedupFirstNodup _)
  obtain ⟨nIssues, hn, hncount⟩ :=
    namingIssuesOkCountZero testFile apiName strs op
  refine ⟨wipIssuesFor ctx testFile content ++
    featureIssuesFor testFile apiVersion content ++ uIssues ++ nIssues, ?_, ?_⟩
  · simp only [validateTestFile]
    rw [hread]
    show (unknownOpsLoop testFile (List.map Yaml.str strs)
        (extractTestOperations content) >>= fun unknownIssues =>
      namingIssuesFor testFile apiName (List.map Yaml.str strs) >>=
        fun namingIssues =>
      pure (wipIssuesFor ctx testFile content ++
        featureIssuesFor testFile apiVersion content ++ unknownIssues ++
        namingIssues)) = _
    rw [exBindOk hu, exBindOk hn]
    rfl
  · simp only [countUnknownAppend, wipIssuesCountZero, featureIssuesCountZero,
      hncount, hcount, hmem, if_true]

/-- Witness for C10: a test file referencing unknown operation `ghost` three
times yields exactly one Critical unknown-operation Issue for it. -/
theorem c10_unknown_operation_witness :
    ∃ issues,
      validateTestFile rcCtx repeatedOpContents "tests/example-run.feature"
          "example" (.str "0.1.0-rc.1") (["getExample"].map .str) = .ok issues ∧
        countUnknownOpIssuesFor issues "ghost" = 1 :=
  c10_unknown_operation_reported_once rcCtx repeatedOpContents
    "tests/example-run.feature" "example" (.str "0.1.0-rc.1") ["getExample"]
    repeatedOpContent "ghost" (by decide) (by decide) (by decide)

/-- C3, counterexample: a rule-battery check can raise to its caller, and the
remaining checks do not run.  On the minimal document with `externalDocs`
replaced by a bare URL string, `_validate_external_docs` raises
`AttributeError` out of the check; `validate_api_file`'s per-file handler
converts it into one Critical Validation Error Issue, the external-docs check
name is recorded but no later check (servers onward) runs. -/
theorem c3_counterexample_check_raises_and_battery_stops :
    (validateExternalDocs (docWithExternalDocs (.str "https://example.com"))
        (minimalRunState 5 [])).2 = .error (.attrError "str" "get") ∧
    validateApiFile rcCtx "example.yaml"
        (docWithExternalDocs (.str "https://example.com")) =
      { minimalRunState 6 [] with
        issues := [validationErrorIssue (.attrError "str" "get")] } ∧
    "External documentation validation" ∈ (minimalRunState 6 []).checks ∧
    "Servers validation" ∉ (minimalRunState 6 []).checks := by
  refine ⟨rfl, ?_, by decide, by decide⟩
  have hrun : batteryBody rcCtx "example.yaml"
      (docWithExternalDocs (.str "https://example.com"))
      (initialVState rcCtx "example.yaml") =
      (minimalRunState 6 [], .error (.attrError "str" "get")) := by
    rw [batteryBody, batteryChecks]
    refine (runSeqStep rfl).trans ?_
    refine (runSeqStep rfl).trans ?_
    refine (runSeqStep rfl).trans ?_
    exact runSeqStepErr rfl
  rw [validateApiFile, pyTryErr hrun]
  rfl

/-- C3 (amended): a rule-battery check meeting an unexpected shape can raise
out of the check; the exception is caught only by `validate_api_file`'s
per-file handler, which appends a single Critical Validation Error Issue and
returns the result normally, and the remaining checks of the battery are
skipped rather than run.  Formalized on the family of documents whose
`externalDocs` is a bare URL string: for every such document the result
records the checks through external-docs validation only, with exactly the
one converted Critical Issue. -/
theorem c3_check_exception_caught_at_file_level (url : String) :
    validateApiFile rcCtx "example.yaml"
        (docWithExternalDocs (.str ("https://" ++ url))) =
      { minimalRunState 6 [] with
        issues := [validationErrorIssue (.attrError "str" "get")] } := by
  have hrun : batteryBody rcCtx "example.yaml"
      (docWithExternalDocs (.str ("https://" ++ url)))
      (initialVState rcCtx "example.yaml") =
      (minimalRunState 6 [], .error (.attrError "str" "get")) := by
    rw [batteryBody, batteryChecks]
    refine (runSeqStep rfl).trans ?_
    refine (runSeqStep rfl).trans ?_
    refine (runSeqStep rfl).trans ?_
    exact runSeqStepErr rfl
  rw [validateApiFile, pyTryErr hrun]
  rfl

theorem exBindErr {e a b : Type} {x : Except e a} {err : e} {f : a → Except e b}
    (h : x = .error err) : (x >>= f) = .error err := by subst h; rfl

theorem exceptMapMMemOk {e a b : Type} {f : a → Except e b} :
    ∀ {xs : List a} {ys : List b}, exceptMapM f xs = .ok ys →
      ∀ y ∈ ys, ∃ x, x ∈ xs ∧ f x = .ok y
  | [], ys, h, y, hy => by
    have h2 : ([] : List b) = ys := Except.ok.inj h
    subst h2
    cases hy
  | x :: xs, ys, h, y, hy => by
    simp only [exceptMapM] at h
    cases hfx : f x with
    | error err => rw [exBindErr hfx] at h; exact Except.noConfusion h
    | ok y0 =>
      simp only [exBindOk hfx] at h
      cases hrest : exceptMapM f xs with
      | error err => rw [exBindErr hrest] at h; exact Except.noConfusion h
      | ok ys0 =>
        simp only [exBindOk hrest] at h
        have h2 : y0 :: ys0 = ys := Except.ok.inj h
        subst h2
        rcases List.mem_cons.1 hy with rfl | hy0
        · exact ⟨x, List.mem_cons_self x xs, hfx⟩
        · obtain ⟨x2, hx2, hfx2⟩ := exceptMapMMemOk hrest y hy0
          exact ⟨x2, List.mem_cons_of_mem x hx2, hfx2⟩

theorem foldlAssignNoMatch (t : String) :
    ∀ (names : List String) (cur : Option String),
      (∀ n ∈ names, matchesTest n t = false) →
      names.foldl (assignStep t) cur = cur
  | [], _, _ => rfl
  | n :: rest, cur, h => by
    rw [List.foldl_cons]
    have hn := h n (List.mem_cons_self n rest)
    have hstep : assignStep t cur n = cur := by
      simp only [assignStep, hn, Bool.false_eq_true, if_false]
    rw [hstep]
    exact foldlAssignNoMatch t rest cur
      (fun m hm => h m (List.mem_cons_of_mem n hm))

theorem assignForNoneOfNoMatch {names : List String} {t : String}
    (h : ∀ n ∈ names, matchesTest n t = false) : assignFor names t = none :=
  foldlAssignNoMatch t names none h

theorem wipIssuesNotOrphan (ctx : ReviewCtx) (tf content : String) :
    ∀ i ∈ wipIssuesFor ctx tf content,
      (i.category == "Orphan Test Files") = false := by
  intro i hi
  unfold wipIssuesFor at hi
  split at hi
  · split at hi
    · cases hi with
      | head => rfl
      | tail _ h2 => cases h2
    · cases hi
  · split at hi
    · cases hi with
      | head => rfl
      | tail _ h2 => cases h2
    · cases hi

theorem featureIssuesNotOrphan (tf : String) (av : Yaml) (content : String) :
    ∀ i ∈ featureIssuesFor tf av content,
      (i.category == "Orphan Test Files") = false := by
  intro i hi
  unfold featureIssuesFor at hi
  split at hi
  · split at hi
    · cases hi with
      | head => rfl
      | tail _ h2 => cases h2
    · cases hi
  · cases hi with
    | head => rfl
    | tail _ h2 => cases h2

theorem unknownOpsLoopNotOrphan (tf : String) (ops : List Yaml) :
    ∀ (l : List String) (issues : List Issue),
      unknownOpsLoop tf ops l = .ok issues →
      ∀ i ∈ issues, (i.category == "Orphan Test Files") = false
  | [], issues, h => by
    have h2 : ([] : List Issue) = issues := Except.ok.inj h
    subst h2
    intro i hi
    cases hi
  | op :: rest, issues, h => by
    simp only [unknownOpsLoop] at h
    cases hrec : unknownOpsLoop tf ops rest with
    | error err => rw [exBindErr hrec] at h; exact Except.noConfusion h
    | ok more =>
      simp only [exBindOk hrec] at h
      by_cases hany : (ops.any (fun v => v == Yaml.str op)) = true
      · rw [if_pos hany] at h
        have h2 : more = issues := Except.ok.inj h
        subst h2
        exact unknownOpsLoopNotOrphan tf ops rest more hrec
      · rw [if_neg hany] at h
        cases hjoin : pyJoinStrs ops with
        | error err => rw [exBindErr hjoin] at h; exact Except.noConfusion h
        | ok joined =>
          simp only [exBindOk hjoin] at h
          have h2 := Except.ok.inj h
          subst h2
          intro i hi
          cases hi with
          | head => rfl
          | tail _ h2 => exact unknownOpsLoopNotOrphan tf ops rest more hrec i h2

theorem namingIssuesNotOrphan (tf an : String) (ops : List Yaml)
    {issues : List Issue} (h : namingIssuesFor tf an ops = .ok issues) :
    ∀ i ∈ issues, (i.category == "Orphan Test Files") = false := by
  simp only [namingIssuesFor] at h
  split at h
  · split at h
    · have h2 : ([] : List Issue) = issues := Except.ok.inj h
      subst h2
      intro i hi
      cases hi
    · cases hjoin : pyJoinStrs ops with
      | error err => rw [exBindErr hjoin] at h; exact Except.noConfusion h
      | ok joined =>
        simp only [exBindOk hjoin] at h
        have h2 := Except.ok.inj h
        subst h2
        intro i hi
        cases hi with
        | head => rfl
        | tail _ h2 => cases h2
  · have h2 : ([] : List Issue) = issues := Except.ok.inj h
    subst h2
    intro i hi
    cases hi

theorem validateTestFileNotOrphan (ctx : ReviewCtx)
    (contents : String → Except String String) (tf an : String) (av : Yaml)
    (ops : List Yaml) {issues : List Issue}
    (h : validateTestFile ctx contents tf an av ops = .ok issues) :
    ∀ i ∈ issues, (i.category == "Orphan Test Files") = false := by
  simp only [validateTestFile] at h
  split at h
  · have h2 := Except.ok.inj h
    subst h2
    intro i hi
    cases hi with
    | head => rfl
    | tail _ h2 => cases h2
  · cases hu : unknownOpsLoop tf ops (extractTestOperations _) with
    | error err => rw [exBindErr hu] at h; exact Except.noConfusion h
    | ok u =>
      simp only [exBindOk hu] at h
      cases hn : namingIssuesFor tf an ops with
      | error err => rw [exBindErr hn] at h; exact Except.noConfusion h
      | ok n =>
        simp only [exBindOk hn] at h
        have h2 := Except.ok.inj h
        subst h2
        intro i hi
        rcases List.mem_append.1 hi with hi1 | hin
        · rcases List.mem_append.1 hi1 with hi2 | hiu
          · rcases List.mem_append.1 hi2 with hiw | hif
            · exact wipIssuesNotOrphan ctx tf _ i hiw
            · exact featureIssuesNotOrphan tf av _ i hif
          · exact unknownOpsLoopNotOrphan tf ops _ u hu i hiu
        · exact namingIssuesNotOrphan tf an ops hn i hin

theorem validateTestAlignmentSingleNotOrphan (ctx : ReviewCtx)
    (specs : String → Except String Yaml)
    (contents : String → Except String String) (af an : String)
    (ts : List String) {r : TAResult}
    (h : validateTestAlignmentSingle ctx specs contents af an ts = .ok r) :
    ∀ i ∈ r.issues, (i.category == "Orphan Test Files") = false := by
  simp only [validateTestAlignmentSingle] at h
  split at h
  · have h2 := Except.ok.inj h
    subst h2
    intro i hi
    cases hi with
    | head => rfl
    | tail _ h2 => cases h2
  · rename_i apiSpec heq
    cases hinfo : apiSpec.pyGetD "info" (.obj []) with
    | error err => rw [exBindErr hinfo] at h; exact Except.noConfusion h
    | ok apiInfo =>
      simp only [exBindOk hinfo] at h
      cases hver : apiInfo.pyGetD "version" (.str "") with
      | error err => rw [exBindErr hver] at h; exact Except.noConfusion h
      | ok apiVersion =>
        simp only [exBindOk hver] at h
        cases htitle : apiInfo.pyGetD "title" (.str "") with
        | error err => rw [exBindErr htitle] at h; exact Except.noConfusion h
        | ok _ =>
          simp only [exBindOk htitle] at h
          split at h
          · have h2 := Except.ok.inj h
            subst h2
            intro i hi
            cases hi with
            | head => rfl
            | tail _ h2 => cases h2
          · cases hops : extractOperationIds apiSpec with
            | error err => rw [exBindErr hops] at h; exact Except.noConfusion h
            | ok ops =>
              simp only [exBindOk hops] at h
              cases hlists : exceptMapM (fun tfj =>
                  validateTestFile ctx contents tfj an apiVersion ops) ts with
              | error err => rw [exBindErr hlists] at h; exact Except.noConfusion h
              | ok issueLists =>
                simp only [exBindOk hlists] at h
                have h2 := Except.ok.inj h
                subst h2
                intro i hi
                have hi2 : i ∈ issueLists.flatten := hi
                obtain ⟨l, hl, hil⟩ := List.mem_flatten.1 hi2
                obtain ⟨tfx, htfx, hveq⟩ := exceptMapMMemOk hlists l hl
                exact validateTestFileNotOrphan ctx contents tfx an apiVersion
                  ops hveq i hil

theorem countOrphanZeroOfNoOrphan {r : TAResult} (stem : String)
    (h : ∀ i ∈ r.issues, (i.category == "Orphan Test Files") = false) :
    countOrphanIssuesFor r stem = 0 := by
  simp only [countOrphanIssuesFor]
  have hfil : r.issues.filter (fun i => i.category == "Orphan Test Files" &&
      i.description == orphanDescriptionFor stem) = [] := by
    rw [List.filter_eq_nil_iff]
    intro i hi hp
    rw [Bool.and_eq_true] at hp
    rw [h i hi] at hp
    exact Bool.false_ne_true hp.1
  rw [hfil]
  rfl

theorem countOrphanAppend (r : TAResult) (l : List Issue) (stem : String) :
    countOrphanIssuesFor { r with issues := r.issues ++ l } stem =
      countOrphanIssuesFor r stem +
        (l.filter (fun i => i.category == "Orphan Test Files" &&
          i.description == orphanDescriptionFor stem)).length := by
  simp [countOrphanIssuesFor, List.filter_append]

theorem orphanDescInjFeature {t stem : String}
    (h : "Test file `" ++ (t ++ ".feature") ++ "` does not match any API" =
      orphanDescriptionFor stem) : t = stem := by
  simp only [orphanDescriptionFor] at h
  have hd := congrArg String.data h
  simp only [String.data_append, List.append_assoc] at hd
  have h1 := List.append_cancel_left hd
  have hmid : (".feature".data ++ "` does not match any API".data) =
      ".feature` does not match any API".data := rfl
  rw [hmid] at h1
  exact String.ext (List.append_cancel_right h1)

theorem orphanPredEq (testDir : String) (names : List String) (stem t : String) :
    ((orphanIssue testDir (t ++ ".feature") names).category ==
        "Orphan Test Files" &&
      (orphanIssue testDir (t ++ ".feature") names).description ==
        orphanDescriptionFor stem) = (t == stem) := by
  simp only [orphanIssue]
  have h1 : (("Orphan Test Files" : String) == "Orphan Test Files") = true := by
    decide
  rw [h1, Bool.true_and]
  rw [Bool.eq_iff_iff]
  simp only [beq_iff_eq]
  constructor
  · exact fun h => orphanDescInjFeature h
  · rintro rfl
    apply String.ext
    simp only [orphanDescriptionFor, String.data_append, List.append_assoc]
    rfl

theorem countOrphanMapped (testDir : String) (names : List String)
    (stems : List String) (stem : String) (hnd : stems.Nodup)
    (hm : stem ∈ stems) :
    (((stems.map (fun t => t ++ ".feature")).map
        (fun o => orphanIssue testDir o names)).filter
      (fun i => i.category == "Orphan Test Files" &&
        i.description == orphanDescriptionFor stem)).length = 1 := by
  rw [List.map_map, List.filter_map, List.length_map]
  simp only [Function.comp_def]
  rw [List.filter_congr (fun t _ => orphanPredEq testDir names stem t)]
  have hc : (stems.filter (fun t => t == stem)).length = stems.count stem := by
    rw [← List.countP_eq_length_filter]
    rfl
  rw [hc]
  exact List.count_eq_one_of_mem hnd hm

/-- C7: a test base name matching no api-name yields exactly one orphan Issue
across the entire list of alignment results, attached to the first
specification's result only. -/
theorem c7_orphan_reported_once_on_first_result
    (ctx : ReviewCtx) (apiFiles : List String)
    (specs : String → Except String Yaml) (testDir : String)
    (allTestFiles : List String) (contents : String → Except String String)
    (stem : String) (r0 : TAResult) (rest : List TAResult)
    (hrun : mapAndValidateTestFilesToApis ctx apiFiles specs testDir
      (some allTestFiles) contents = .ok (r0 :: rest))
    (hmem : stem ∈ allTestFiles) (hnodup : allTestFiles.Nodup)
    (hnomatch : ∀ f ∈ apiFiles,
      matchesTest (deriveApiName f (specs f)) stem = false) :
    countOrphanIssuesFor r0 stem = 1 ∧
      ∀ r ∈ rest, countOrphanIssuesFor r stem = 0 := by
  simp only [mapAndValidateTestFilesToApis] at hrun
  set names := apiFiles.map (fun f => deriveApiName f (specs f)) with hnames
  have hnamesmatch : ∀ n ∈ names, matchesTest n stem = false := by
    intro n hn
    rw [hnames] at hn
    obtain ⟨f, hf, rfl⟩ := List.mem_map.1 hn
    exact hnomatch f hf
  have hassign : assignFor names stem = none :=
    assignForNoneOfNoMatch hnamesmatch
  cases hres : exceptMapM
      (alignOne ctx specs contents testDir names allTestFiles)
      (apiFiles.zip names) with
  | error err => rw [exBindErr hres] at hrun; exact Except.noConfusion hrun
  | ok rs =>
    simp only [exBindOk hres] at hrun
    cases rs with
    | nil =>
      have h2 : ([] : List TAResult) = r0 :: rest := Except.ok.inj hrun
      exact List.noConfusion h2
    | cons r1 rest1 =>
      have hstemfilter : stem ∈ allTestFiles.filter
          (fun t => (assignFor names t).isNone) := by
        rw [List.mem_filter]
        exact ⟨hmem, by rw [hassign]; rfl⟩
      have hne : (((allTestFiles.filter
          (fun t => (assignFor names t).isNone)).map
            (fun t => t ++ ".feature")).isEmpty) = false := by
        cases hcase : (((allTestFiles.filter
            (fun t => (assignFor names t).isNone)).map
              (fun t => t ++ ".feature")).isEmpty) with
        | false => rfl
        | true =>
          rw [List.isEmpty_iff] at hcase
          have := List.mem_map_of_mem (fun t => t ++ ".feature") hstemfilter
          rw [hcase] at this
          cases this
      have hrun2 :
          (if (((allTestFiles.filter
                (fun t => (assignFor names t).isNone)).map
                  (fun t => t ++ ".feature")).isEmpty) = true
           then pure (r1 :: rest1)
           else pure
             ({ r1 with issues := r1.issues ++ ((allTestFiles.filter (fun t => (assignFor names t).isNone)).map (fun t => t ++ ".feature")).map (fun o => orphanIssue testDir o names) } :: rest1)) =
            (Except.ok (r0 :: rest) : Except PyErr (List TAResult)) := hrun
      rw [if_neg (by rw [hne]; exact Bool.false_ne_true)] at hrun2
      have hinj := Except.ok.inj hrun2
      obtain ⟨h0, hrest⟩ := List.cons.inj hinj
      subst hrest
      subst h0
      constructor
      · have hr0cats : ∀ i ∈ r1.issues,
            (i.category == "Orphan Test Files") = false := by
          obtain ⟨fa, hfa, hok⟩ :=
            exceptMapMMemOk hres r1 (List.mem_cons_self r1 rest1)
          exact validateTestAlignmentSingleNotOrphan ctx specs contents
            fa.1 fa.2 _ hok
        rw [countOrphanAppend, countOrphanZeroOfNoOrphan stem hr0cats,
          countOrphanMapped testDir names _ stem
            (hnodup.filter _) hstemfilter]
      · intro r hr
        obtain ⟨fa, hfa, hok⟩ :=
          exceptMapMMemOk hres r (List.mem_cons_of_mem r1 hr)
        exact countOrphanZeroOfNoOrphan stem
          (validateTestAlignmentSingleNotOrphan ctx specs contents
            fa.1 fa.2 _ hok)

/-- Witness for C7: one unreadable specification `a.yaml` (api-name `a`) and
one test stem `orphan-stem` matching nothing — the single alignment result
carries exactly one orphan Issue for that stem, and there is no later result
to carry another. -/
theorem c7_orphan_reported_once_witness :
    countOrphanIssuesFor c7WitnessResult "orphan-stem" = 1 ∧
      ∀ r ∈ ([] : List TAResult), countOrphanIssuesFor r "orphan-stem" = 0 :=
  c7_orphan_reported_once_on_first_result rcCtx ["a.yaml"] failingSpecs "tests"
    ["orphan-stem"] failingContents "orphan-stem" c7WitnessResult [] rfl
    (by decide) (by decide) (by decide)
